import Mathlib

/-!
StmTimeLib: interval timers and one-shot latches.

A shallow embedding of `interval_policy.h`, `interval/StackITimer.h`,
`interval/OneShotITimer.h`, `virtual/VTimer.h`, `virtual/VTimer.cpp`,
`virtual/StackVTimer.h`, `virtual/OneShotVTimer.h`, `interval/ITimeBase.h`,
`interval/OneShotIBase.h`, `HTimer.h`, `HTimer.cpp` and the `DwtBuilder` of `Dwt.h`.

Values of an unsigned counter type `T` of `w` bits are natural numbers below
`2 ^ w`.  The width `w` is the template parameter `T`; `reg` and `u32` are 32
bits wide, and `int` is 32 bits wide on the Cortex-M targets of the library, so
operands of an unsigned type narrower than 32 bits undergo integral promotion
to `int` before `-` and `>=`.
-/

namespace StmTime

/-! ## Arithmetic of the unsigned counter type -/

/-- Value of the C++ expression `a - b` for two operands of the unsigned type
`T` of `w` bits, before any conversion back to `T`.  For `w < 32` both operands
are promoted to `int` and the difference is the signed one; otherwise the
subtraction is the unsigned one of `T`, reduced modulo `2 ^ w`. -/
def subExpr (w a b : Nat) : Int :=
  if w < 32 then (a : Int) - (b : Int) else (((a + (2 ^ w - b)) % 2 ^ w : Nat) : Int)

/-- Conversion of an integer value to the unsigned type `T` of `w` bits
(initialisation of a `value_type` object, or return as `value_type`). -/
def toT (w : Nat) (x : Int) : Nat := (x % (2 : Int) ^ w).toNat

/-! ## interval_policy.h -/

/-- The policy base class selected by `std::conditional_t<(Interval == T{0}), ...>`:
`StaticIntervalPolicy<T, Interval>` has no storage, `DynamicIntervalPolicy<T>`
holds the field `interval`. -/
inductive IntervalPolicy where
  | Static (Interval : Nat)
  | Dynamic (interval : Nat)
  deriving DecidableEq, Repr

namespace IntervalPolicy

/-- `DynamicIntervalPolicy::normalize` for an unsigned `T` (the timers assert
`std::is_unsigned_v<T>`): the `else` branch of `if constexpr (std::is_signed_v<T>)`. -/
def normalize (iv : Nat) : Nat := iv

/-- Selection of the policy from the template argument `Interval`, followed by
the policy constructor: `DynamicIntervalPolicy(iv)` stores `normalize(iv)`,
`StaticIntervalPolicy()` stores nothing. -/
def select (Interval : Nat) (iv : Nat) : IntervalPolicy :=
  if Interval = 0 then Dynamic (normalize iv) else Static Interval

/-- `getInterval()` of either policy. -/
def getInterval : IntervalPolicy → Nat
  | Static I => I
  | Dynamic iv => iv

/-- `is_dynamic_interval`. -/
def isDynamic : IntervalPolicy → Bool
  | Static _ => false
  | Dynamic _ => true

/-- `setInterval(iv)`: a member of the dynamic policy only; a call on the
static policy does not compile, which is `none`. -/
def setInterval : IntervalPolicy → Nat → Option IntervalPolicy
  | Static _, _ => none
  | Dynamic _, iv => some (Dynamic (normalize iv))

end IntervalPolicy

/-! ## interval/StackITimer.h -/

/-- An object of `StackITimer<Interval, T>`: the policy base and `_lastTime`. -/
structure StackITimer where
  policy : IntervalPolicy
  lastTime : Nat
  deriving DecidableEq, Repr

namespace StackITimer

/-- Construction `StackITimer<Interval, T>(iv)`; `_lastTime = 0`. -/
def ctor (Interval : Nat) (iv : Nat) : StackITimer :=
  { policy := IntervalPolicy.select Interval iv, lastTime := 0 }

/-- `getInterval()`, inherited from the policy. -/
def getInterval (t : StackITimer) : Nat := t.policy.getInterval

/-- `isExpired(now)`: `return (now - _lastTime) >= Policy::getInterval();`.
The comparison is made on the value of `now - _lastTime` as the expression
yields it; for `w < 32` the right operand is promoted to `int` as well. -/
def isExpired (w : Nat) (t : StackITimer) (now : Nat) : Bool :=
  decide ((t.getInterval : Int) ≤ subExpr w now t.lastTime)

/-- `timeLeft(now)`: `elapsed` and `interval` are `value_type` objects, and the
result is returned as `value_type`. -/
def timeLeft (w : Nat) (t : StackITimer) (now : Nat) : Nat :=
  let elapsed := toT w (subExpr w now t.lastTime)
  let interval := t.getInterval
  if interval ≤ elapsed then 0 else toT w (subExpr w interval elapsed)

/-- `next(now)`: `_lastTime = now;`. -/
def next (t : StackITimer) (now : Nat) : StackITimer :=
  { t with lastTime := now }

/-- `next(now, interval)`: `_lastTime = now; Policy::setInterval(interval);`,
a compile-time error (`none`) on a static timer. -/
def nextWith (t : StackITimer) (now interval : Nat) : Option StackITimer :=
  (t.policy.setInterval interval).map fun p => { policy := p, lastTime := now }

/-- `elapsed(now)`: `return now - _lastTime;` as `value_type`. -/
def elapsed (w : Nat) (t : StackITimer) (now : Nat) : Nat :=
  toT w (subExpr w now t.lastTime)

end StackITimer

/-! ## interval/OneShotITimer.h -/

/-- An object of `OneShotITimer<Interval, T>`: the `StackITimer` base and the
two latch flags with their default member initialisers. -/
structure OneShotITimer where
  base : StackITimer
  started : Bool := false
  expired : Bool := true
  deriving DecidableEq, Repr

namespace OneShotITimer

/-- Construction through the inherited constructor. -/
def ctor (Interval : Nat) (iv : Nat) : OneShotITimer :=
  { base := StackITimer.ctor Interval iv }

/-- `isExpired(now)`: the returned flag and the object after the call. -/
def isExpired (w : Nat) (t : OneShotITimer) (now : Nat) : Bool × OneShotITimer :=
  if !t.started || t.expired then (false, t)
  else if t.base.isExpired w now then (true, { t with expired := true })
  else (false, t)

/-- `next(now)`: `Base::next(now); _expired = false;`. -/
def next (t : OneShotITimer) (now : Nat) : OneShotITimer :=
  { t with base := t.base.next now, expired := false }

/-- `next(now, interval)`: `Base::next(now, interval); _expired = false;`. -/
def nextWith (t : OneShotITimer) (now interval : Nat) : Option OneShotITimer :=
  (t.base.nextWith now interval).map fun b => { t with base := b, expired := false }

/-- `start(now)`: `Base::next(now); _expired = false; _started = true;`. -/
def start (t : OneShotITimer) (now : Nat) : OneShotITimer :=
  { t with base := t.base.next now, expired := false, started := true }

/-- `start(now, interval)`: `Base::next(now, interval); _expired = false;
_started = true;`. -/
def startWith (t : OneShotITimer) (now interval : Nat) : Option OneShotITimer :=
  (t.base.nextWith now interval).map fun b =>
    { base := b, expired := false, started := true }

/-- `stop()`: `_started = false; _expired = true;`. -/
def stop (t : OneShotITimer) : OneShotITimer :=
  { t with started := false, expired := true }

/-- `isStopped()`. -/
def isStopped (t : OneShotITimer) : Bool := !t.started

/-- A call of one of the mutating members of `OneShotITimer`. -/
inductive Call where
  | isExpired (now : Nat)
  | next (now : Nat)
  | nextWith (now interval : Nat)
  | start (now : Nat)
  | startWith (now interval : Nat)
  | stop
  deriving DecidableEq, Repr

/-- Whether the call is one of the two `start` overloads. -/
def Call.isStart : Call → Bool
  | .start _ => true
  | .startWith _ _ => true
  | _ => false

/-- Whether the call is one of the `next` or `start` overloads. -/
def Call.isRearm : Call → Bool
  | .isExpired _ => false
  | .stop => false
  | _ => true

/-- Whether the call is one of the overloads taking a new interval, which
exist on a dynamic instance only. -/
def Call.setsInterval : Call → Bool
  | .nextWith _ _ => true
  | .startWith _ _ => true
  | _ => false

/-- One call: the value returned by `isExpired` (if that was the call) and the
object afterwards; `none` when the call does not compile for the policy. -/
def call (w : Nat) (t : OneShotITimer) : Call → Option (Option Bool × OneShotITimer)
  | .isExpired now => some (some (t.isExpired w now).1, (t.isExpired w now).2)
  | .next now => some (none, t.next now)
  | .nextWith now iv => (t.nextWith now iv).map fun t1 => (none, t1)
  | .start now => some (none, t.start now)
  | .startWith now iv => (t.startWith now iv).map fun t1 => (none, t1)
  | .stop => some (none, t.stop)

/-- A sequence of calls on one object: the values returned by the `isExpired`
calls, in call order, and the final object. -/
def run (w : Nat) (t : OneShotITimer) : List Call → Option (List Bool × OneShotITimer)
  | [] => some ([], t)
  | c :: cs =>
    match call w t c with
    | none => none
    | some (r, t1) =>
      match run w t1 cs with
      | none => none
      | some (rs, t2) => some (r.toList ++ rs, t2)

end OneShotITimer

/-! ## virtual/VTimer.h (counter queries) -/

/-- The per-object state of a `VTimer`: the countdown `m_counter`. -/
structure VTimer where
  m_counter : Nat
  deriving DecidableEq, Repr

namespace VTimer

/-- `isExpired()`: `return m_counter == 0;`. -/
def isExpired (t : VTimer) : Bool := t.m_counter == 0

/-- `timeLeft()`: `return m_counter;`. -/
def timeLeft (t : VTimer) : Nat := t.m_counter

end VTimer

/-! ## interval_policy.h: DynamicIntervalPolicy over any integral type -/

/-- An integral type `T` as `DynamicIntervalPolicy<T>` accepts it
(`static_assert(std::is_integral_v<T>)`): its signedness and its width in bits. -/
structure IntType where
  isSigned : Bool
  bits : Nat
  deriving DecidableEq, Repr

namespace IntType

/-- `std::numeric_limits<T>::min()`. -/
def minVal (T : IntType) : Int :=
  if T.isSigned then -((2 : Int) ^ (T.bits - 1)) else 0

/-- `std::numeric_limits<T>::max()`. -/
def maxVal (T : IntType) : Int :=
  if T.isSigned then (2 : Int) ^ (T.bits - 1) - 1 else (2 : Int) ^ T.bits - 1

/-- Conversion of an `int` value to `T`: the value congruent modulo `2 ^ bits`
that `T` can hold (two's complement for a signed `T`). -/
def convert (T : IntType) (x : Int) : Int :=
  if T.isSigned then
    (x + (2 : Int) ^ (T.bits - 1)) % (2 : Int) ^ T.bits - (2 : Int) ^ (T.bits - 1)
  else x % (2 : Int) ^ T.bits

end IntType

/-- An object of `DynamicIntervalPolicy<T>`: the field `interval`. -/
structure DynamicIntervalPolicy where
  interval : Int
  deriving DecidableEq, Repr

namespace DynamicIntervalPolicy

/-- `normalize(iv)`: `(iv < T{0}) ? -iv : iv` for a signed `T`, `iv` otherwise.
For a signed `T` narrower than `int` the operand of `-` is promoted to `int`,
so `-iv` is computed exactly and converted back to `T` on return.  For `int`
and wider types `-iv` is evaluated in `T`; when it exceeds the maximum of `T`
the signed overflow is undefined behaviour, which is `none`. -/
def normalize (T : IntType) (iv : Int) : Option Int :=
  if T.isSigned then
    if iv < 0 then
      if T.bits < 32 then some (T.convert (-iv))
      else if -iv ≤ T.maxVal then some (-iv)
      else none
    else some iv
  else some iv

/-- Constructor `DynamicIntervalPolicy(iv)`: `interval(normalize(iv))`. -/
def ctor (T : IntType) (iv : Int) : Option DynamicIntervalPolicy :=
  (normalize T iv).map fun v => { interval := v }

/-- `setInterval(iv)`: `interval = normalize(iv);`. -/
def setInterval (T : IntType) (_p : DynamicIntervalPolicy) (iv : Int) :
    Option DynamicIntervalPolicy :=
  (normalize T iv).map fun v => { interval := v }

/-- `getInterval()`: `return interval;`. -/
def getInterval (p : DynamicIntervalPolicy) : Int := p.interval

end DynamicIntervalPolicy

/-! ## virtual/VTimer.h and virtual/VTimer.cpp: the registry -/

/-- The state the members of `VTimer` work on: the `VTimer` object at each
address (its `m_counter`) and the static vector `m_timers` of the addresses of
the registered objects, in order. -/
structure VTimer.State where
  objs : Nat → VTimer
  m_timers : List Nat

namespace VTimer

/-- Assignment `m_counter = c` in the object at address `this`. -/
def setCounter (objs : Nat → VTimer) (this c : Nat) : Nat → VTimer :=
  fun a => if a = this then { m_counter := c } else objs a

/-- Constructor `VTimer(delay)` of the object at `this`:
`m_counter = delay; m_timers.emplace_back(this);`. -/
def ctor (s : State) (this delay : Nat) : State :=
  { objs := setCounter s.objs this delay, m_timers := s.m_timers ++ [this] }

/-- Constructor with the default argument `delay = 0`. -/
def ctorDefault (s : State) (this : Nat) : State := ctor s this 0

/-- Destructor of the object at `this`: `std::find` followed by the `erase`
of the first match, when there is one. -/
def dtor (s : State) (this : Nat) : State :=
  if this ∈ s.m_timers then { s with m_timers := s.m_timers.erase this } else s

/-- `stop()`: `m_counter = 0;`. -/
def stop (s : State) (this : Nat) : State :=
  { s with objs := setCounter s.objs this 0 }

/-- `next(delay)`: `m_counter = delay;`. -/
def next (s : State) (this delay : Nat) : State :=
  { s with objs := setCounter s.objs this delay }

/-- `erase()`: `std::find` followed by the `erase` of the first match, when
there is one. -/
def erase (s : State) (this : Nat) : State :=
  if this ∈ s.m_timers then { s with m_timers := s.m_timers.erase this } else s

/-- `emplace()`: when `std::find` reaches `end()`,
`m_counter = 0; m_timers.emplace_back(this);`, else nothing. -/
def emplace (s : State) (this : Nat) : State :=
  if this ∈ s.m_timers then s
  else { objs := setCounter s.objs this 0, m_timers := s.m_timers ++ [this] }

/-- The statement `--_counter` on the 32-bit `value_type` (`reg`). -/
def decrement (c : Nat) : Nat := (c + (2 ^ 32 - 1)) % 2 ^ 32

/-- The body of the loop of `proceed()` for one entry `timer` of `m_timers`. -/
def proceedOne (objs : Nat → VTimer) (timer : Nat) : Nat → VTimer :=
  let _counter := (objs timer).m_counter
  if _counter ≠ 0 then setCounter objs timer (decrement _counter) else objs

/-- `proceed()`: the loop over `m_timers`, in order. -/
def proceed (s : State) : State :=
  { s with objs := s.m_timers.foldl proceedOne s.objs }

/-- `HAL_SYSTICK_Callback()`: `VTimer::proceed();`. -/
def HAL_SYSTICK_Callback (s : State) : State := proceed s

/-- The state after `k` invocations of the tick handler. -/
def ticks : Nat → State → State
  | 0, s => s
  | k + 1, s => ticks k (HAL_SYSTICK_Callback s)

end VTimer

/-! ## virtual/StackVTimer.h -/

/-- An object of `StackVTimer<Interval, T>`: the address `this` of its `VTimer`
base (whose `m_counter` lives in `VTimer.State`), the policy base and
`_lastTime`. -/
structure StackVTimer where
  this : Nat
  policy : IntervalPolicy
  lastTime : Nat
  deriving DecidableEq, Repr

namespace StackVTimer

/-- Conversion of a value of `T` to `VTimer::value_type` (`reg`, 32 bits) at a
call of `VTimer(delay)` or `VTimer::next(delay)`. -/
def toReg (x : Nat) : Nat := x % 2 ^ 32

/-- Constructors: `Base(iv), Policy(iv)` in dynamic mode and
`Base(static_cast<U>(I)), Policy()` in static mode; `_lastTime = value_type{}`. -/
def ctor (s : VTimer.State) (this Interval iv : Nat) : VTimer.State × StackVTimer :=
  (VTimer.ctor s this (toReg (if Interval = 0 then iv else Interval)),
    { this := this, policy := IntervalPolicy.select Interval iv, lastTime := 0 })

/-- `getInterval()`, inherited from the policy. -/
def getInterval (v : StackVTimer) : Nat := v.policy.getInterval

/-- `isExpired()`, inherited from `VTimer`. -/
def isExpired (s : VTimer.State) (v : StackVTimer) : Bool := (s.objs v.this).isExpired

/-- `timeLeft()`, inherited from `VTimer`. -/
def timeLeft (s : VTimer.State) (v : StackVTimer) : Nat := (s.objs v.this).timeLeft

/-- `stop()`, inherited from `VTimer`. -/
def stop (s : VTimer.State) (v : StackVTimer) : VTimer.State × StackVTimer :=
  (VTimer.stop s v.this, v)

/-- `next(now)`: `_lastTime = now; Base::next(Policy::getInterval());`. -/
def next (s : VTimer.State) (v : StackVTimer) (now : Nat) : VTimer.State × StackVTimer :=
  (VTimer.next s v.this (toReg v.getInterval), { v with lastTime := now })

/-- `next(now, interval)`: `_lastTime = now; Policy::setInterval(interval);
Base::next(interval);`, a compile-time error (`none`) on a static timer. -/
def nextWith (s : VTimer.State) (v : StackVTimer) (now interval : Nat) :
    Option (VTimer.State × StackVTimer) :=
  (v.policy.setInterval interval).map fun p =>
    (VTimer.next s v.this (toReg interval), { this := v.this, policy := p, lastTime := now })

/-- `elapsed(now)`: `return now - _lastTime;` as `value_type`. -/
def elapsed (w : Nat) (v : StackVTimer) (now : Nat) : Nat :=
  toT w (subExpr w now v.lastTime)

/-- The object and the registry after `k` invocations of the tick handler,
which writes counters only. -/
def ticks (k : Nat) (p : VTimer.State × StackVTimer) : VTimer.State × StackVTimer :=
  (VTimer.ticks k p.1, p.2)

end StackVTimer

/-! ## virtual/OneShotVTimer.h -/

/-- An object of `OneShotVTimer<Interval, T>`: the `StackVTimer` base and the
two latch flags with their default member initialisers. -/
structure OneShotVTimer where
  base : StackVTimer
  started : Bool := false
  expired : Bool := true
  deriving DecidableEq, Repr

namespace OneShotVTimer

/-- Construction through the inherited constructor. -/
def ctor (s : VTimer.State) (this Interval iv : Nat) : VTimer.State × OneShotVTimer :=
  ((StackVTimer.ctor s this Interval iv).1, { base := (StackVTimer.ctor s this Interval iv).2 })

/-- `isExpired()`: the returned flag and the object after the call. -/
def isExpired (s : VTimer.State) (t : OneShotVTimer) : Bool × OneShotVTimer :=
  if !t.started || t.expired then (false, t)
  else if t.base.isExpired s then (true, { t with expired := true })
  else (false, t)

/-- `next(now)`: `Base::next(now); _expired = false;`. -/
def next (s : VTimer.State) (t : OneShotVTimer) (now : Nat) : VTimer.State × OneShotVTimer :=
  ((t.base.next s now).1, { t with base := (t.base.next s now).2, expired := false })

/-- `next(now, interval)`: `Base::next(now, interval); _expired = false;`. -/
def nextWith (s : VTimer.State) (t : OneShotVTimer) (now interval : Nat) :
    Option (VTimer.State × OneShotVTimer) :=
  (t.base.nextWith s now interval).map fun r =>
    (r.1, { t with base := r.2, expired := false })

/-- `start(now)`: `Base::next(now)`, under an `IRQGuard` in the branch where
the countdown has not expired; then `_started = true; _expired = false;`. -/
def start (s : VTimer.State) (t : OneShotVTimer) (now : Nat) : VTimer.State × OneShotVTimer :=
  let r := if t.base.isExpired s then t.base.next s now else t.base.next s now
  (r.1, { base := r.2, started := true, expired := false })

/-- `start(now, interval)`: `Base::next(now, interval)`, under an `IRQGuard` in
the branch where the countdown has not expired; then `_expired = false;
_started = true;`. -/
def startWith (s : VTimer.State) (t : OneShotVTimer) (now interval : Nat) :
    Option (VTimer.State × OneShotVTimer) :=
  let r := if t.base.isExpired s then t.base.nextWith s now interval
    else t.base.nextWith s now interval
  r.map fun q => (q.1, { base := q.2, started := true, expired := false })

/-- `stop()`: `_started = false; _expired = true; Base::stop();`. -/
def stop (s : VTimer.State) (t : OneShotVTimer) : VTimer.State × OneShotVTimer :=
  (VTimer.stop s t.base.this, { t with started := false, expired := true })

/-- What happens to one `OneShotVTimer` and the registry: an invocation of the
tick handler, or a call of a member. -/
inductive Event where
  | tick
  | isExpired
  | next (now : Nat)
  | stop
  deriving DecidableEq, Repr

/-- Whether the event is a tick or an `isExpired()` call. -/
def Event.isPoll : Event → Bool
  | .tick => true
  | .isExpired => true
  | _ => false

/-- The number of tick-handler invocations among the events. -/
def ticksIn (es : List Event) : Nat := es.count Event.tick

/-- The number of `isExpired()` calls among the events. -/
def callsIn (es : List Event) : Nat := es.count Event.isExpired

/-- A sequence of events: the values returned by the `isExpired()` calls, in
call order, and the registry and object afterwards. -/
def exec (s : VTimer.State) (t : OneShotVTimer) :
    List Event → List Bool × (VTimer.State × OneShotVTimer)
  | [] => ([], (s, t))
  | .tick :: es => exec (VTimer.HAL_SYSTICK_Callback s) t es
  | .isExpired :: es =>
    ((isExpired s t).1 :: (exec s (isExpired s t).2 es).1, (exec s (isExpired s t).2 es).2)
  | .next now :: es => exec (next s t now).1 (next s t now).2 es
  | .stop :: es => exec (stop s t).1 (stop s t).2 es

end OneShotVTimer

/-! ## interval/ITimeBase.h and interval/OneShotIBase.h -/

/-- An object of `ITimeBase<Interval, Policy>`: its `StackITimer` base.  The
arguments called `now` below are the values `Policy::now()` returns at the
call. -/
structure ITimeBase where
  base : StackITimer
  deriving DecidableEq, Repr

namespace ITimeBase

/-- `next()`: `Base::next(Policy::now());`. -/
def next (o : ITimeBase) (now : Nat) : ITimeBase := { base := o.base.next now }

/-- Constructors `ITimeBase(iv)` (dynamic) and `ITimeBase()` (static):
`Base(iv)` or `Base()`, then `next();` in the body. -/
def ctor (Interval iv now : Nat) : ITimeBase :=
  next { base := StackITimer.ctor Interval iv } now

/-- `isExpired()`: `return Base::isExpired(Policy::now());`. -/
def isExpired (w : Nat) (o : ITimeBase) (now : Nat) : Bool := o.base.isExpired w now

/-- `timeLeft()`: `return Base::timeLeft(Policy::now());`. -/
def timeLeft (w : Nat) (o : ITimeBase) (now : Nat) : Nat := o.base.timeLeft w now

/-- `elapsed()`: `return Base::elapsed(Policy::now());`. -/
def elapsed (w : Nat) (o : ITimeBase) (now : Nat) : Nat := o.base.elapsed w now

end ITimeBase

/-- An object of `OneShotIBase<Interval, Policy>`: its `OneShotITimer` base. -/
structure OneShotIBase where
  base : OneShotITimer
  deriving DecidableEq, Repr

namespace OneShotIBase

/-- Constructors, inherited by `using Base::Base;`: there is no constructor
body, so the value `now` of the time source at construction is not read. -/
def ctor (Interval iv _now : Nat) : OneShotIBase :=
  { base := OneShotITimer.ctor Interval iv }

/-- `isExpired()`: `return Base::isExpired(Policy::now());`. -/
def isExpired (w : Nat) (o : OneShotIBase) (now : Nat) : Bool × OneShotIBase :=
  ((o.base.isExpired w now).1, { base := (o.base.isExpired w now).2 })

/-- `next()`: `Base::next(Policy::now());`. -/
def next (o : OneShotIBase) (now : Nat) : OneShotIBase := { base := o.base.next now }

/-- `start()`: `Base::start(Policy::now());`. -/
def start (o : OneShotIBase) (now : Nat) : OneShotIBase := { base := o.base.start now }

/-- `timeLeft()`: `return Base::timeLeft(Policy::now());`. -/
def timeLeft (w : Nat) (o : OneShotIBase) (now : Nat) : Nat := o.base.base.timeLeft w now

/-- `elapsed()`: `return Base::elapsed(Policy::now());`. -/
def elapsed (w : Nat) (o : OneShotIBase) (now : Nat) : Nat := o.base.base.elapsed w now

end OneShotIBase

/-! ## HTimer.h and HTimer.cpp -/

/-- What the HAL provides for the handle object at an address:
`IS_TIM_INSTANCE(htim->Instance)` and the value `__HAL_TIM_GET_COUNTER(htim)`
reads from the peripheral. -/
structure Hal where
  IS_TIM_INSTANCE : Nat → Bool
  GET_COUNTER : Nat → Nat

/-- An access to the timer peripheral behind the handle at an address:
`HAL_TIM_Base_Start`, `HAL_TIM_Base_Stop` or `__HAL_TIM_GET_COUNTER`. -/
inductive HwAccess where
  | Start (htim : Nat)
  | Stop (htim : Nat)
  | GetCounter (htim : Nat)
  deriving DecidableEq, Repr

/-- The static state of `HTimer`: the pointer `_htim` (`none` is `nullptr`),
and the accesses to the hardware made so far, in order. -/
structure HTimer where
  htim : Option Nat
  hw : List HwAccess
  deriving DecidableEq, Repr

namespace HTimer

/-- The state at program start: `_htim = nullptr`, no access made. -/
def init : HTimer := { htim := none, hw := [] }

/-- `timerStart()`: `if (_htim != nullptr) HAL_TIM_Base_Start(_htim);`. -/
def timerStart (s : HTimer) : HTimer :=
  match s.htim with
  | some h => { s with hw := s.hw ++ [HwAccess.Start h] }
  | none => s

/-- `timerStop()`: `if (_htim != nullptr) HAL_TIM_Base_Stop(_htim);`. -/
def timerStop (s : HTimer) : HTimer :=
  match s.htim with
  | some h => { s with hw := s.hw ++ [HwAccess.Stop h] }
  | none => s

/-- `attachTimer(htim)`: the returned flag and the state afterwards. -/
def attachTimer (hal : Hal) (s : HTimer) (htim : Option Nat) : Bool × HTimer :=
  match htim with
  | none => (false, s)
  | some h =>
    if !hal.IS_TIM_INSTANCE h then (false, s)
    else
      let s1 := if s.htim ≠ some h then timerStop s else s
      (true, timerStart { s1 with htim := some h })

/-- `now()`: `return _htim ? __HAL_TIM_GET_COUNTER(_htim) : 0;`. -/
def now (hal : Hal) (s : HTimer) : Nat × HTimer :=
  match s.htim with
  | some h => (hal.GET_COUNTER h, { s with hw := s.hw ++ [HwAccess.GetCounter h] })
  | none => (0, s)

/-- `isAvailable()`: `return _htim != nullptr;`. -/
def isAvailable (s : HTimer) : Bool := s.htim.isSome

end HTimer

/-! ## Dwt.h: DwtBuilder -/

namespace DwtBuilder

/-- `from_nano(ns)`: `(ns * SystemCoreClock + 999'999'999ull) / 1'000'000'000ull`
in 64-bit unsigned arithmetic, returned as the 32-bit `type_t`. -/
def from_nano (SystemCoreClock ns : Nat) : Nat :=
  ((ns * SystemCoreClock % 2 ^ 64 + 999999999) % 2 ^ 64 / 1000000000) % 2 ^ 32

/-- `from_micro(us)`: `(us * static_cast<u64>(SystemCoreClock) + 999'999ull) /
1'000'000ull`, returned as the 32-bit `type_t`. -/
def from_micro (SystemCoreClock us : Nat) : Nat :=
  ((us * SystemCoreClock % 2 ^ 64 + 999999) % 2 ^ 64 / 1000000) % 2 ^ 32

/-- `from_milli(ms)`: `(ms * static_cast<u64>(SystemCoreClock) + 999ull) /
1'000ull`, returned as the 32-bit `type_t`. -/
def from_milli (SystemCoreClock ms : Nat) : Nat :=
  ((ms * SystemCoreClock % 2 ^ 64 + 999) % 2 ^ 64 / 1000) % 2 ^ 32

end DwtBuilder

/-! ## Lifetimes of VTimer objects -/

/-- The registry state together with the addresses of the `VTimer` objects that
have been constructed and not yet destroyed. -/
structure VTimer.Program where
  state : VTimer.State
  alive : List Nat

namespace VTimer

/-- The program before any `VTimer` exists: `m_timers = {}`, whatever the
memory holds. -/
def Program.init (objs : Nat → VTimer) : Program :=
  { state := { objs := objs, m_timers := [] }, alive := [] }

/-- What a program does with its `VTimer` objects: a construction, a
destruction, a member call on the object at an address, or an invocation of the
tick handler. -/
inductive Op where
  | ctor (this delay : Nat)
  | dtor (this : Nat)
  | erase (this : Nat)
  | emplace (this : Nat)
  | next (this delay : Nat)
  | stop (this : Nat)
  | tick
  deriving DecidableEq, Repr

/-- Whether the operation is one a program can perform: a construction takes
place at an address where no object lives, a destruction or a member call is
on a living object. -/
def Op.legal (alive : List Nat) : Op → Bool
  | .ctor this _ => decide (this ∉ alive)
  | .dtor this => decide (this ∈ alive)
  | .erase this => decide (this ∈ alive)
  | .emplace this => decide (this ∈ alive)
  | .next this _ => decide (this ∈ alive)
  | .stop this => decide (this ∈ alive)
  | .tick => true

/-- The effect of one operation. -/
def stepOp (p : Program) : Op → Program
  | .ctor this delay => { state := ctor p.state this delay, alive := this :: p.alive }
  | .dtor this =>
    { state := dtor p.state this, alive := p.alive.filter (fun a => a != this) }
  | .erase this => { p with state := erase p.state this }
  | .emplace this => { p with state := emplace p.state this }
  | .next this delay => { p with state := next p.state this delay }
  | .stop this => { p with state := stop p.state this }
  | .tick => { p with state := HAL_SYSTICK_Callback p.state }

/-- The effect of a sequence of operations, in order. -/
def runOps (p : Program) : List Op → Program
  | [] => p
  | op :: ops => runOps (stepOp p op) ops

/-- Whether each operation of the sequence is legal at the point where it is
performed. -/
def legalOps (p : Program) : List Op → Bool
  | [] => true
  | op :: ops => op.legal p.alive && legalOps (stepOp p op) ops

end VTimer

/-! ## Helper lemmas -/

theorem subExpr_wide (w a b : Nat) (hw : 32 ≤ w) :
    subExpr w a b = (((a + (2 ^ w - b)) % 2 ^ w : Nat) : Int) := by
  unfold subExpr
  rw [if_neg (by omega)]

theorem toT_natCast_mod (w n : Nat) : toT w ((n % 2 ^ w : Nat) : Int) = n % 2 ^ w := by
  unfold toT
  have h : ((2 : Int) ^ w) = ((2 ^ w : Nat) : Int) := by push_cast; rfl
  rw [h, ← Int.natCast_mod, Int.toNat_natCast, Nat.mod_mod]

/-- The unsigned difference agrees with the integer difference reduced modulo
`2 ^ w`, for operands in range. -/
theorem wrap_eq_emod (w a b : Nat) (ha : a < 2 ^ w) (hb : b < 2 ^ w) :
    (((a + (2 ^ w - b)) % 2 ^ w : Nat) : Int) = ((a : Int) - (b : Int)) % (2 : Int) ^ w := by
  have h : ((2 : Int) ^ w) = ((2 ^ w : Nat) : Int) := by push_cast; rfl
  rw [h]
  generalize 2 ^ w = m at ha hb
  have hm : 0 < m := by omega
  rw [Int.natCast_mod]
  have e : ((a + (m - b) : Nat) : Int) = ((a : Int) - (b : Int)) + (m : Int) := by
    omega
  rw [e, Int.add_emod_self]

/-- A timer that was not started reports nothing and is left as it is. -/
theorem OneShotITimer.isExpired_of_not_started (w : Nat) (t : OneShotITimer) (now : Nat)
    (h : t.started = false) : t.isExpired w now = (false, t) := by
  simp [OneShotITimer.isExpired, h]

/-- A timer whose expiry was already reported reports nothing more. -/
theorem OneShotITimer.isExpired_of_expired (w : Nat) (t : OneShotITimer) (now : Nat)
    (h : t.expired = true) : t.isExpired w now = (false, t) := by
  simp [OneShotITimer.isExpired, h]

theorem OneShotITimer.call_not_started (w : Nat) (t : OneShotITimer) (c : OneShotITimer.Call)
    (r : Option Bool) (t1 : OneShotITimer) (hs : t.started = false) (hc : c.isStart = false)
    (h : OneShotITimer.call w t c = some (r, t1)) :
    t1.started = false ∧ ∀ b, r = some b → b = false := by
  cases c with
  | isExpired now =>
    simp only [OneShotITimer.call, OneShotITimer.isExpired_of_not_started w t now hs,
      Option.some.injEq, Prod.mk.injEq] at h
    obtain ⟨h1, h2⟩ := h
    subst h1 h2
    exact ⟨hs, fun b hb => (Option.some.inj hb).symm⟩
  | next now =>
    simp only [OneShotITimer.call, Option.some.injEq, Prod.mk.injEq] at h
    obtain ⟨h1, h2⟩ := h
    subst h1 h2
    exact ⟨hs, fun b hb => by cases hb⟩
  | nextWith now iv =>
    cases hp : t.base.policy with
    | Static I =>
      simp [OneShotITimer.call, OneShotITimer.nextWith, StackITimer.nextWith,
        IntervalPolicy.setInterval, hp] at h
    | Dynamic i =>
      simp only [OneShotITimer.call, OneShotITimer.nextWith, StackITimer.nextWith,
        IntervalPolicy.setInterval, hp, Option.map_some', Option.some.injEq, Prod.mk.injEq] at h
      obtain ⟨h1, h2⟩ := h
      subst h1 h2
      exact ⟨hs, fun b hb => by cases hb⟩
  | start now => simp [OneShotITimer.Call.isStart] at hc
  | startWith now iv => simp [OneShotITimer.Call.isStart] at hc
  | stop =>
    simp only [OneShotITimer.call, Option.some.injEq, Prod.mk.injEq] at h
    obtain ⟨h1, h2⟩ := h
    subst h1 h2
    exact ⟨rfl, fun b hb => by cases hb⟩

/-- Without a `start`, a timer that is not started stays so and every
`isExpired` of the sequence returns false. -/
theorem OneShotITimer.run_not_started (w : Nat) (cs : List OneShotITimer.Call) :
    ∀ (t : OneShotITimer) (rs : List Bool) (t2 : OneShotITimer), t.started = false →
      (∀ c ∈ cs, c.isStart = false) → OneShotITimer.run w t cs = some (rs, t2) →
      (∀ b ∈ rs, b = false) ∧ t2.started = false := by
  induction cs with
  | nil =>
    intro t rs t2 hs _ h
    simp only [OneShotITimer.run, Option.some.injEq, Prod.mk.injEq] at h
    obtain ⟨h1, h2⟩ := h
    subst h1 h2
    exact ⟨(fun b hb => by cases hb), hs⟩
  | cons c cs ih =>
    intro t rs t2 hs hcs h
    cases hc : OneShotITimer.call w t c with
    | none => simp [OneShotITimer.run, hc] at h
    | some p =>
      obtain ⟨r, t1⟩ := p
      obtain ⟨hs1, hr⟩ :=
        OneShotITimer.call_not_started w t c r t1 hs (hcs c (List.mem_cons_self c cs)) hc
      cases hrun : OneShotITimer.run w t1 cs with
      | none => simp [OneShotITimer.run, hc, hrun] at h
      | some q =>
        obtain ⟨rs1, t3⟩ := q
        simp only [OneShotITimer.run, hc, hrun, Option.some.injEq, Prod.mk.injEq] at h
        obtain ⟨h1, h2⟩ := h
        subst h1 h2
        obtain ⟨ih1, ih2⟩ :=
          ih t1 rs1 t3 hs1 (fun c1 hc1 => hcs c1 (List.mem_cons_of_mem c hc1)) hrun
        refine ⟨?_, ih2⟩
        intro b hb
        rcases List.mem_append.mp hb with hb | hb
        · exact hr b (by simpa using hb)
        · exact ih1 b hb

/-- A call compiles when the overloads taking an interval are used on a
dynamic instance only, and no call changes the kind of the policy. -/
theorem OneShotITimer.call_total (w : Nat) (t : OneShotITimer) (c : OneShotITimer.Call)
    (hc : c.setsInterval = true → t.base.policy.isDynamic = true) :
    ∃ r t1, OneShotITimer.call w t c = some (r, t1) ∧
      t1.base.policy.isDynamic = t.base.policy.isDynamic := by
  cases c with
  | isExpired now =>
    refine ⟨_, _, rfl, ?_⟩
    unfold OneShotITimer.isExpired
    split_ifs <;> rfl
  | next now => exact ⟨_, _, rfl, rfl⟩
  | nextWith now iv =>
    have hd := hc rfl
    cases hp : t.base.policy with
    | Static I => rw [hp] at hd; cases hd
    | Dynamic i =>
      refine ⟨none, { t with base := ⟨.Dynamic iv, now⟩, expired := false }, ?_, rfl⟩
      simp [OneShotITimer.call, OneShotITimer.nextWith, StackITimer.nextWith,
        IntervalPolicy.setInterval, IntervalPolicy.normalize, hp]
  | start now => exact ⟨_, _, rfl, rfl⟩
  | startWith now iv =>
    have hd := hc rfl
    cases hp : t.base.policy with
    | Static I => rw [hp] at hd; cases hd
    | Dynamic i =>
      refine ⟨none, { base := ⟨.Dynamic iv, now⟩, expired := false, started := true }, ?_, rfl⟩
      simp [OneShotITimer.call, OneShotITimer.startWith, StackITimer.nextWith,
        IntervalPolicy.setInterval, IntervalPolicy.normalize, hp]
  | stop => exact ⟨_, _, rfl, rfl⟩

/-- A sequence of calls runs to its end when the overloads taking an interval
are used on a dynamic instance only. -/
theorem OneShotITimer.run_total (w : Nat) (cs : List OneShotITimer.Call) :
    ∀ t : OneShotITimer, (∀ c ∈ cs, c.setsInterval = true → t.base.policy.isDynamic = true) →
      ∃ rs t2, OneShotITimer.run w t cs = some (rs, t2) := by
  induction cs with
  | nil => intro t _; exact ⟨[], t, rfl⟩
  | cons c cs ih =>
    intro t hcs
    obtain ⟨r, t1, h1, hd⟩ := OneShotITimer.call_total w t c (hcs c (List.mem_cons_self c cs))
    obtain ⟨rs, t2, h2⟩ := ih t1 (fun c1 hc1 hs => by
      rw [hd]; exact hcs c1 (List.mem_cons_of_mem c hc1) hs)
    exact ⟨r.toList ++ rs, t2, by simp [OneShotITimer.run, h1, h2]⟩

/-- Once the expiry was reported, a sequence of `isExpired` and `stop` calls
runs to its end, every `isExpired` in it returns false, and the latch stays
set. -/
theorem OneShotITimer.run_latched (w : Nat) (cs : List OneShotITimer.Call) :
    ∀ t : OneShotITimer, t.expired = true → (∀ c ∈ cs, c.isRearm = false) →
      ∃ rs t2, OneShotITimer.run w t cs = some (rs, t2) ∧ (∀ b ∈ rs, b = false) ∧
        t2.expired = true := by
  induction cs with
  | nil => intro t he _; exact ⟨[], t, rfl, (fun b hb => by cases hb), he⟩
  | cons c cs ih =>
    intro t he hcs
    have hc := hcs c (List.mem_cons_self c cs)
    have hrest : ∀ c1 ∈ cs, c1.isRearm = false :=
      fun c1 hc1 => hcs c1 (List.mem_cons_of_mem c hc1)
    cases c with
    | isExpired now =>
      obtain ⟨rs, t2, h2, hf, he2⟩ := ih t he hrest
      refine ⟨false :: rs, t2, ?_, ?_, he2⟩
      · simp [OneShotITimer.run, OneShotITimer.call,
          OneShotITimer.isExpired_of_expired w t now he, h2]
      · intro b hb
        rcases List.mem_cons.mp hb with hb | hb
        · exact hb
        · exact hf b hb
    | stop =>
      obtain ⟨rs, t2, h2, hf, he2⟩ := ih t.stop rfl hrest
      exact ⟨rs, t2, by simp [OneShotITimer.run, OneShotITimer.call, h2], hf, he2⟩
    | next now => simp [OneShotITimer.Call.isRearm] at hc
    | nextWith now iv => simp [OneShotITimer.Call.isRearm] at hc
    | start now => simp [OneShotITimer.Call.isRearm] at hc
    | startWith now iv => simp [OneShotITimer.Call.isRearm] at hc

/-! ## Pull-model interval timer -/

/-- C1: for a 32-bit StackITimer and every lastTime, interval and now of the
counter type, isExpired(now) is true exactly when the difference now - lastTime
reduced modulo 2^32 is at least the interval, whether or not now is
numerically below lastTime. -/
theorem StackITimer.isExpired_iff_wrap32 (t : StackITimer) (now : Nat)
    (hl : t.lastTime < 2 ^ 32) (hn : now < 2 ^ 32) :
    t.isExpired 32 now = true ↔
      (t.getInterval : Int) ≤ ((now : Int) - (t.lastTime : Int)) % 2 ^ 32 := by
  unfold StackITimer.isExpired
  rw [subExpr_wide 32 now t.lastTime (le_refl 32), wrap_eq_emod 32 now t.lastTime hn hl]
  simp

theorem StackITimer.isExpired_iff_wrap32_witness :
    (StackITimer.mk (.Dynamic 10) 4294967290).isExpired 32 5 = true ↔
      (((StackITimer.mk (.Dynamic 10) 4294967290).getInterval : Nat) : Int)
        ≤ (((5 : Nat) : Int) - ((4294967290 : Nat) : Int)) % 2 ^ 32 :=
  StackITimer.isExpired_iff_wrap32 ⟨.Dynamic 10, 4294967290⟩ 5 (by decide) (by decide)

/-- C2: for a 32-bit StackITimer, elapsed(now) is now - lastTime reduced modulo
2^32 (with no cap at the interval), and timeLeft(now) is interval - elapsed(now)
when elapsed(now) is below the interval and 0 otherwise. -/
theorem StackITimer.elapsed_timeLeft_32 (t : StackITimer) (now : Nat)
    (hl : t.lastTime < 2 ^ 32) (hi : t.getInterval < 2 ^ 32) (hn : now < 2 ^ 32) :
    (t.elapsed 32 now : Int) = ((now : Int) - (t.lastTime : Int)) % 2 ^ 32 ∧
      t.timeLeft 32 now =
        if t.elapsed 32 now < t.getInterval then t.getInterval - t.elapsed 32 now else 0 := by
  have he : t.elapsed 32 now = (now + (2 ^ 32 - t.lastTime)) % 2 ^ 32 := by
    unfold StackITimer.elapsed
    rw [subExpr_wide 32 now t.lastTime (le_refl 32), toT_natCast_mod]
  constructor
  · rw [he, wrap_eq_emod 32 now t.lastTime hn hl]
  · have hlt : t.elapsed 32 now < 2 ^ 32 := by
      rw [he]; exact Nat.mod_lt _ (by norm_num)
    have ht : t.timeLeft 32 now =
        if t.getInterval ≤ t.elapsed 32 now then 0
        else toT 32 (subExpr 32 t.getInterval (t.elapsed 32 now)) := rfl
    rw [ht, subExpr_wide 32 _ _ (le_refl 32), toT_natCast_mod]
    generalize t.elapsed 32 now = e at hlt
    generalize t.getInterval = i at hi
    split_ifs <;> omega

theorem StackITimer.elapsed_timeLeft_32_witness :
    (((StackITimer.mk (.Dynamic 10) 4294967290).elapsed 32 3 : Nat) : Int)
        = (((3 : Nat) : Int) - ((4294967290 : Nat) : Int)) % 2 ^ 32 ∧
      (StackITimer.mk (.Dynamic 10) 4294967290).timeLeft 32 3 =
        if (StackITimer.mk (.Dynamic 10) 4294967290).elapsed 32 3
            < (StackITimer.mk (.Dynamic 10) 4294967290).getInterval
        then (StackITimer.mk (.Dynamic 10) 4294967290).getInterval
            - (StackITimer.mk (.Dynamic 10) 4294967290).elapsed 32 3
        else 0 :=
  StackITimer.elapsed_timeLeft_32 ⟨.Dynamic 10, 4294967290⟩ 3 (by decide) (by decide) (by decide)

/-- C3: next(now) sets lastTime to now and leaves the policy, hence
getInterval(), unchanged, also over any number of next calls and for static and
dynamic instances alike; next(now, newInterval) on a dynamic instance sets
lastTime to now and makes getInterval() return newInterval. -/
theorem StackITimer.next_sets_lastTime_keeps_interval (t : StackITimer) (now : Nat)
    (nows : List Nat) (iv0 lt newInterval : Nat) :
    (t.next now).lastTime = now ∧
      (t.next now).policy = t.policy ∧
      (t.next now).getInterval = t.getInterval ∧
      (nows.foldl StackITimer.next t).getInterval = t.getInterval ∧
      ∃ t1, StackITimer.nextWith ⟨.Dynamic iv0, lt⟩ now newInterval = some t1 ∧
        t1.lastTime = now ∧ t1.getInterval = newInterval := by
  refine ⟨rfl, rfl, rfl, ?_, ⟨⟨.Dynamic newInterval, now⟩, rfl, rfl, rfl⟩⟩
  induction nows generalizing t with
  | nil => rfl
  | cons n ns ih =>
    rw [List.foldl_cons, ih (t.next n)]
    rfl

/-- Time-left boundary where no integral promotion takes place: for a
StackITimer whose counter type is at least 32 bits wide, timeLeft(now) is 0
exactly when isExpired(now) is true and positive otherwise; for a VTimer,
timeLeft() is 0 exactly when isExpired() is true and positive otherwise. -/
theorem StackITimer.timeLeft_eq_zero_iff_isExpired (w : Nat) (hw : 32 ≤ w)
    (t : StackITimer) (now : Nat) (hi : t.getInterval < 2 ^ w) (c : Nat) :
    (t.timeLeft w now = 0 ↔ t.isExpired w now = true) ∧
      (t.isExpired w now = false → 0 < t.timeLeft w now) ∧
      ((VTimer.mk c).timeLeft = 0 ↔ (VTimer.mk c).isExpired = true) ∧
      ((VTimer.mk c).isExpired = false → 0 < (VTimer.mk c).timeLeft) := by
  have hx : t.isExpired w now = decide (t.getInterval ≤ (now + (2 ^ w - t.lastTime)) % 2 ^ w) := by
    unfold StackITimer.isExpired
    rw [subExpr_wide w now t.lastTime hw, decide_eq_decide]
    exact Int.ofNat_le
  have ht : t.timeLeft w now =
      if t.getInterval ≤ (now + (2 ^ w - t.lastTime)) % 2 ^ w then 0
      else (t.getInterval + (2 ^ w - (now + (2 ^ w - t.lastTime)) % 2 ^ w)) % 2 ^ w := by
    unfold StackITimer.timeLeft
    simp only [subExpr_wide _ _ _ hw, toT_natCast_mod]
  have hpos : 0 < 2 ^ w := Nat.two_pow_pos w
  have hnz : ¬ t.getInterval ≤ (now + (2 ^ w - t.lastTime)) % 2 ^ w →
      0 < (t.getInterval + (2 ^ w - (now + (2 ^ w - t.lastTime)) % 2 ^ w)) % 2 ^ w := by
    intro hlt
    have he : (now + (2 ^ w - t.lastTime)) % 2 ^ w < 2 ^ w := Nat.mod_lt _ hpos
    generalize (now + (2 ^ w - t.lastTime)) % 2 ^ w = e at hlt he
    generalize t.getInterval = i at hi hlt
    generalize 2 ^ w = m at hi he hpos
    have e1 : i + (m - e) = (i - e) + m := by omega
    rw [e1, Nat.add_mod_right, Nat.mod_eq_of_lt (by omega)]
    omega
  refine ⟨?_, ?_, ?_, ?_⟩
  · rw [hx, ht]
    by_cases h : t.getInterval ≤ (now + (2 ^ w - t.lastTime)) % 2 ^ w
    · simp [h]
    · have := hnz h
      simp [h]
      omega
  · rw [hx, ht]
    intro h
    have h2 : ¬ t.getInterval ≤ (now + (2 ^ w - t.lastTime)) % 2 ^ w := by simpa using h
    rw [if_neg h2]
    exact hnz h2
  · simp [VTimer.timeLeft, VTimer.isExpired]
  · simp [VTimer.timeLeft, VTimer.isExpired]
    omega

theorem StackITimer.timeLeft_eq_zero_iff_isExpired_witness :
    ((StackITimer.mk (.Dynamic 10) 4294967290).timeLeft 32 3 = 0 ↔
        (StackITimer.mk (.Dynamic 10) 4294967290).isExpired 32 3 = true) ∧
      ((StackITimer.mk (.Dynamic 10) 4294967290).isExpired 32 3 = false →
        0 < (StackITimer.mk (.Dynamic 10) 4294967290).timeLeft 32 3) ∧
      ((VTimer.mk 4).timeLeft = 0 ↔ (VTimer.mk 4).isExpired = true) ∧
      ((VTimer.mk 4).isExpired = false → 0 < (VTimer.mk 4).timeLeft) :=
  StackITimer.timeLeft_eq_zero_iff_isExpired 32 (by decide) ⟨.Dynamic 10, 4294967290⟩ 3
    (by decide) 4

/-- C4: on an 8-bit StackITimer with lastTime 250 and interval 10, and on a
16-bit one with lastTime 65530 and interval 10, timeLeft(5) is 0 while
isExpired(5) is false: elapsed(5) is 11 in both, but isExpired compares the
promoted difference 5 - lastTime, which is negative.  So timeLeft(now) = 0 is
not equivalent to isExpired(now) for a counter type narrower than int. -/
theorem StackITimer.timeLeft_zero_but_not_expired_narrow :
    (((StackITimer.ctor 0 10).next 250).timeLeft 8 5 = 0 ∧
        ((StackITimer.ctor 0 10).next 250).isExpired 8 5 = false ∧
        ((StackITimer.ctor 0 10).next 250).elapsed 8 5 = 11 ∧
        ¬ (((StackITimer.ctor 0 10).next 250).timeLeft 8 5 = 0 ↔
          ((StackITimer.ctor 0 10).next 250).isExpired 8 5 = true)) ∧
      (((StackITimer.ctor 0 10).next 65530).timeLeft 16 5 = 0 ∧
        ((StackITimer.ctor 0 10).next 65530).isExpired 16 5 = false ∧
        ((StackITimer.ctor 0 10).next 65530).elapsed 16 5 = 11 ∧
        ¬ (((StackITimer.ctor 0 10).next 65530).timeLeft 16 5 = 0 ↔
          ((StackITimer.ctor 0 10).next 65530).isExpired 16 5 = true)) := by
  decide

/-- C5: on a dynamic 32-bit StackITimer constructed with interval 1000
(lastTime 0), isExpired(500) is false and isExpired(1000) is true; after
next(1000), isExpired(1500) is false and elapsed(1500) is 500. -/
theorem StackITimer.end_to_end_scenario :
    (StackITimer.ctor 0 1000).lastTime = 0 ∧
      (StackITimer.ctor 0 1000).getInterval = 1000 ∧
      (StackITimer.ctor 0 1000).isExpired 32 500 = false ∧
      (StackITimer.ctor 0 1000).isExpired 32 1000 = true ∧
      ((StackITimer.ctor 0 1000).next 1000).isExpired 32 1500 = false ∧
      ((StackITimer.ctor 0 1000).next 1000).elapsed 32 1500 = 500 := by
  decide

/-- C6: on an 8-bit StackITimer with lastTime 250 and interval 10, the
operands of isExpired(5) are promoted to int, so the comparison is
5 - 250 >= 10 and isExpired(5) is false, although elapsed(5) is 11 and
timeLeft(5) is 0. -/
theorem StackITimer.isExpired_u8_across_overflow :
    ((StackITimer.ctor 0 10).next 250).isExpired 8 5 = false ∧
      ((StackITimer.ctor 0 10).next 250).elapsed 8 5 = 11 ∧
      ((StackITimer.ctor 0 10).next 250).timeLeft 8 5 = 0 ∧
      ((StackITimer.ctor 0 10).next 250).getInterval = 10 := by
  decide

/-! ## Pull-model one-shot timer -/

/-- C7: on a dynamic 32-bit OneShotITimer in any state, for every now, interval
iv and delta d of the counter type with d >= iv, after start(now, iv) the first
isExpired(now + d) returns true, and afterwards every isExpired of any sequence
of isExpired and stop calls, with any time samples, returns false. -/
theorem OneShotITimer.fires_exactly_once (t : OneShotITimer) (now iv d : Nat)
    (hdyn : t.base.policy.isDynamic = true) (hnow : now < 2 ^ 32) (hd : d < 2 ^ 32)
    (hge : iv ≤ d) :
    ∃ t1, t.startWith now iv = some t1 ∧
      (t1.isExpired 32 ((now + d) % 2 ^ 32)).1 = true ∧
      ∀ cs : List OneShotITimer.Call, (∀ c ∈ cs, c.isRearm = false) →
        ∃ rs t3, OneShotITimer.run 32 (t1.isExpired 32 ((now + d) % 2 ^ 32)).2 cs
            = some (rs, t3) ∧ ∀ b ∈ rs, b = false := by
  cases hp : t.base.policy with
  | Static I => rw [hp] at hdyn; cases hdyn
  | Dynamic i =>
    have hbase : StackITimer.isExpired 32 ⟨.Dynamic iv, now⟩ ((now + d) % 2 ^ 32) = true := by
      unfold StackITimer.isExpired
      rw [subExpr_wide 32 _ _ (le_refl 32)]
      simp only [StackITimer.getInterval, IntervalPolicy.getInterval, decide_eq_true_eq]
      omega
    have hfire : OneShotITimer.isExpired 32
        { base := ⟨.Dynamic iv, now⟩, started := true, expired := false } ((now + d) % 2 ^ 32)
        = (true, { base := ⟨.Dynamic iv, now⟩, started := true, expired := true }) := by
      simp only [OneShotITimer.isExpired, hbase]
      rfl
    refine ⟨{ base := ⟨.Dynamic iv, now⟩, started := true, expired := false }, ?_, ?_, ?_⟩
    · simp [OneShotITimer.startWith, StackITimer.nextWith, IntervalPolicy.setInterval,
        IntervalPolicy.normalize, hp]
    · rw [hfire]
    · intro cs hcs
      rw [hfire]
      obtain ⟨rs, t3, h1, h2, _⟩ := OneShotITimer.run_latched 32 cs
        { base := ⟨.Dynamic iv, now⟩, started := true, expired := true } rfl hcs
      exact ⟨rs, t3, h1, h2⟩

theorem OneShotITimer.fires_exactly_once_witness :
    ∃ t1, (OneShotITimer.ctor 0 0).startWith 7 100 = some t1 ∧
      (t1.isExpired 32 ((7 + 150) % 2 ^ 32)).1 = true ∧
      ∀ cs : List OneShotITimer.Call, (∀ c ∈ cs, c.isRearm = false) →
        ∃ rs t3, OneShotITimer.run 32 (t1.isExpired 32 ((7 + 150) % 2 ^ 32)).2 cs
            = some (rs, t3) ∧ ∀ b ∈ rs, b = false :=
  OneShotITimer.fires_exactly_once (OneShotITimer.ctor 0 0) 7 100 150 (by decide) (by decide)
    (by decide) (by decide)

/-- C8: a constructed OneShotITimer (default-constructed or with an initial
interval, static or dynamic) is Stopped, started = false and expired = true,
and every sequence of next(now), next(now, interval), stop() and isExpired(now)
calls containing no start runs to its end on a dynamic instance, returns false
from each isExpired and leaves started false. -/
theorem OneShotITimer.never_started_never_expires (w Interval iv : Nat)
    (cs : List OneShotITimer.Call) (hcs : ∀ c ∈ cs, c.isStart = false) :
    (OneShotITimer.ctor Interval iv).started = false ∧
      (OneShotITimer.ctor Interval iv).expired = true ∧
      (OneShotITimer.ctor Interval iv).isStopped = true ∧
      ((Interval = 0 ∨ ∀ c ∈ cs, c.setsInterval = false) →
        ∃ rs t2, OneShotITimer.run w (OneShotITimer.ctor Interval iv) cs = some (rs, t2)) ∧
      ∀ rs t2, OneShotITimer.run w (OneShotITimer.ctor Interval iv) cs = some (rs, t2) →
        (∀ b ∈ rs, b = false) ∧ t2.started = false := by
  refine ⟨rfl, rfl, rfl, ?_, ?_⟩
  · intro h
    apply OneShotITimer.run_total
    intro c hc hset
    rcases h with h | h
    · subst h
      rfl
    · rw [h c hc] at hset
      cases hset
  · intro rs t2 h
    exact OneShotITimer.run_not_started w cs _ rs t2 rfl hcs h

theorem OneShotITimer.never_started_never_expires_witness :
    (OneShotITimer.ctor 0 0).started = false ∧
      (OneShotITimer.ctor 0 0).expired = true ∧
      (OneShotITimer.ctor 0 0).isStopped = true ∧
      ((0 = 0 ∨ ∀ c ∈ [OneShotITimer.Call.nextWith 5 10, .isExpired 20, .next 30,
            .isExpired 4000, .stop, .isExpired 5000], c.setsInterval = false) →
        ∃ rs t2, OneShotITimer.run 32 (OneShotITimer.ctor 0 0)
          [.nextWith 5 10, .isExpired 20, .next 30, .isExpired 4000, .stop, .isExpired 5000]
            = some (rs, t2)) ∧
      ∀ rs t2, OneShotITimer.run 32 (OneShotITimer.ctor 0 0)
          [.nextWith 5 10, .isExpired 20, .next 30, .isExpired 4000, .stop, .isExpired 5000]
            = some (rs, t2) →
        (∀ b ∈ rs, b = false) ∧ t2.started = false :=
  OneShotITimer.never_started_never_expires 32 0 0
    [.nextWith 5 10, .isExpired 20, .next 30, .isExpired 4000, .stop, .isExpired 5000]
    (by decide)

/-- C9: start(now) from any state gives lastTime = now, started = true,
expired = false and leaves the policy, hence the interval, unchanged;
start(now, interval) on a dynamic instance in any state gives the same flags
and lastTime, and getInterval() returns interval afterwards. -/
theorem OneShotITimer.start_arms (t : OneShotITimer) (now interval iv0 lt : Nat)
    (s e : Bool) :
    (t.start now).base.lastTime = now ∧
      (t.start now).started = true ∧
      (t.start now).expired = false ∧
      (t.start now).base.policy = t.base.policy ∧
      (t.start now).base.getInterval = t.base.getInterval ∧
      ∃ t1, OneShotITimer.startWith
          { base := ⟨.Dynamic iv0, lt⟩, started := s, expired := e } now interval = some t1 ∧
        t1.base.lastTime = now ∧ t1.started = true ∧ t1.expired = false ∧
        t1.base.getInterval = interval :=
  ⟨rfl, rfl, rfl, rfl, rfl,
    ⟨{ base := ⟨.Dynamic interval, now⟩, started := true, expired := false },
      rfl, rfl, rfl, rfl, rfl⟩⟩

/-- C10: stop() from any state gives started = false and expired = true and
leaves lastTime and the interval unchanged; afterwards, through any sequence of
calls containing no start, every isExpired(now) returns false and changes no
field. -/
theorem OneShotITimer.stop_makes_inert (w : Nat) (t : OneShotITimer)
    (cs : List OneShotITimer.Call) (now : Nat) (hcs : ∀ c ∈ cs, c.isStart = false) :
    t.stop.started = false ∧ t.stop.expired = true ∧ t.stop.base = t.base ∧
      t.stop.isExpired w now = (false, t.stop) ∧
      ((t.base.policy.isDynamic = true ∨ ∀ c ∈ cs, c.setsInterval = false) →
        ∃ rs t2, OneShotITimer.run w t.stop cs = some (rs, t2)) ∧
      ∀ rs t2, OneShotITimer.run w t.stop cs = some (rs, t2) →
        (∀ b ∈ rs, b = false) ∧ t2.isExpired w now = (false, t2) := by
  refine ⟨rfl, rfl, rfl, OneShotITimer.isExpired_of_not_started w _ now rfl, ?_, ?_⟩
  · intro h
    apply OneShotITimer.run_total
    intro c hc hset
    rcases h with h | h
    · exact h
    · rw [h c hc] at hset
      cases hset
  · intro rs t2 h
    obtain ⟨h1, h2⟩ := OneShotITimer.run_not_started w cs _ rs t2 rfl hcs h
    exact ⟨h1, OneShotITimer.isExpired_of_not_started w t2 now h2⟩

theorem OneShotITimer.stop_makes_inert_witness :
    (OneShotITimer.mk ⟨.Dynamic 100, 7⟩ true false).stop.started = false ∧
      (OneShotITimer.mk ⟨.Dynamic 100, 7⟩ true false).stop.expired = true ∧
      (OneShotITimer.mk ⟨.Dynamic 100, 7⟩ true false).stop.base
        = (OneShotITimer.mk ⟨.Dynamic 100, 7⟩ true false).base ∧
      (OneShotITimer.mk ⟨.Dynamic 100, 7⟩ true false).stop.isExpired 32 900
        = (false, (OneShotITimer.mk ⟨.Dynamic 100, 7⟩ true false).stop) ∧
      (((OneShotITimer.mk ⟨.Dynamic 100, 7⟩ true false).base.policy.isDynamic = true ∨
          ∀ c ∈ [OneShotITimer.Call.isExpired 500, .next 600, .isExpired 800],
            c.setsInterval = false) →
        ∃ rs t2, OneShotITimer.run 32 (OneShotITimer.mk ⟨.Dynamic 100, 7⟩ true false).stop
          [.isExpired 500, .next 600, .isExpired 800] = some (rs, t2)) ∧
      ∀ rs t2, OneShotITimer.run 32 (OneShotITimer.mk ⟨.Dynamic 100, 7⟩ true false).stop
          [.isExpired 500, .next 600, .isExpired 800] = some (rs, t2) →
        (∀ b ∈ rs, b = false) ∧ t2.isExpired 32 900 = (false, t2) :=
  OneShotITimer.stop_makes_inert 32 (OneShotITimer.mk ⟨.Dynamic 100, 7⟩ true false)
    [.isExpired 500, .next 600, .isExpired 800] 900 (by decide)

/-! ## Helper lemmas on the registry -/

/-- One loop body of `proceed()` takes one from the counter of its own entry,
stopping at zero, and leaves every other counter. -/
theorem VTimer.proceedOne_counter (objs : Nat → VTimer) (timer t : Nat)
    (h : (objs t).m_counter < 2 ^ 32) :
    ((VTimer.proceedOne objs timer) t).m_counter
      = (objs t).m_counter - (if timer = t then 1 else 0) := by
  unfold VTimer.proceedOne
  by_cases hz : (objs timer).m_counter = 0
  · simp only [hz, ne_eq, not_true_eq_false, if_false]
    by_cases e : timer = t
    · subst e
      simp [hz]
    · simp [e]
  · simp only [ne_eq, hz, not_false_eq_true, if_true, VTimer.setCounter]
    by_cases e : timer = t
    · subst e
      simp only [if_true, VTimer.decrement]
      omega
    · have e1 : ¬ t = timer := fun h1 => e h1.symm
      simp [e, e1]

/-- The loop of `proceed()` over a list of entries takes from each counter the
number of entries of its timer, stopping at zero. -/
theorem VTimer.foldl_proceedOne_counter (l : List Nat) :
    ∀ (objs : Nat → VTimer) (t : Nat), (objs t).m_counter < 2 ^ 32 →
      ((l.foldl VTimer.proceedOne objs) t).m_counter = (objs t).m_counter - l.count t := by
  induction l with
  | nil => intro objs t _; simp
  | cons a l ih =>
    intro objs t h
    have h1 := VTimer.proceedOne_counter objs a t h
    have h2 : ((VTimer.proceedOne objs a) t).m_counter < 2 ^ 32 := by
      rw [h1]; omega
    rw [List.foldl_cons, ih (VTimer.proceedOne objs a) t h2, h1, List.count_cons]
    by_cases e : a = t
    · subst e
      simp
      omega
    · simp [e]

theorem VTimer.proceed_counter (s : VTimer.State) (t : Nat)
    (h : (s.objs t).m_counter < 2 ^ 32) :
    ((VTimer.HAL_SYSTICK_Callback s).objs t).m_counter
      = (s.objs t).m_counter - s.m_timers.count t :=
  VTimer.foldl_proceedOne_counter s.m_timers s.objs t h

theorem VTimer.ticks_m_timers (k : Nat) :
    ∀ s : VTimer.State, (VTimer.ticks k s).m_timers = s.m_timers := by
  induction k with
  | zero => intro s; rfl
  | succ k ih => intro s; rw [VTimer.ticks, ih]; rfl

/-- After `k` ticks a counter has lost `k` times the number of entries of its
timer, stopping at zero. -/
theorem VTimer.ticks_counter (k : Nat) :
    ∀ (s : VTimer.State) (t : Nat), (s.objs t).m_counter < 2 ^ 32 →
      ((VTimer.ticks k s).objs t).m_counter = (s.objs t).m_counter - k * s.m_timers.count t := by
  induction k with
  | zero => intro s t _; simp [VTimer.ticks]
  | succ k ih =>
    intro s t h
    have h1 := VTimer.proceed_counter s t h
    have h2 : ((VTimer.HAL_SYSTICK_Callback s).objs t).m_counter < 2 ^ 32 := by
      rw [h1]; omega
    have h3 : (VTimer.HAL_SYSTICK_Callback s).m_timers = s.m_timers := rfl
    rw [VTimer.ticks, ih (VTimer.HAL_SYSTICK_Callback s) t h2, h1, h3, Nat.succ_mul]
    omega

/-! ## Helper lemmas on re-arming and on normalisation -/

/-- At 32 bits the periodic expiry test is the comparison of the interval with
the difference reduced modulo `2 ^ 32`. -/
theorem StackITimer.isExpired_32_eq (t : StackITimer) (now : Nat)
    (hl : t.lastTime < 2 ^ 32) (hn : now < 2 ^ 32) :
    t.isExpired 32 now
      = decide ((t.getInterval : Int) ≤ ((now : Int) - (t.lastTime : Int)) % 2 ^ 32) := by
  unfold StackITimer.isExpired
  rw [subExpr_wide 32 now t.lastTime (le_refl 32), wrap_eq_emod 32 now t.lastTime hn hl]

/-- An armed timer whose interval has not elapsed at any of the samples returns
false from each `isExpired` and is left as it is. -/
theorem OneShotITimer.run_armed_pending (w : Nat) (t : OneShotITimer)
    (hs : t.started = true) (he : t.expired = false) (nows : List Nat)
    (h : ∀ n ∈ nows, t.base.isExpired w n = false) :
    OneShotITimer.run w t (nows.map OneShotITimer.Call.isExpired)
      = some (List.replicate nows.length false, t) := by
  induction nows with
  | nil => rfl
  | cons n ns ih =>
    have hn : t.isExpired w n = (false, t) := by
      simp [OneShotITimer.isExpired, hs, he, h n (List.mem_cons_self n ns)]
    have ih1 := ih (fun m hm => h m (List.mem_cons_of_mem n hm))
    simp [OneShotITimer.run, OneShotITimer.call, hn, ih1, List.replicate_succ]

/-- The conversion to a signed type leaves a value of that type as it is. -/
theorem IntType.convert_of_fits (b : Nat) (hb : 0 < b) (x : Int)
    (hlo : -((2 : Int) ^ (b - 1)) ≤ x) (hhi : x ≤ (2 : Int) ^ (b - 1) - 1) :
    (IntType.mk true b).convert x = x := by
  have h2 : (2 : Int) ^ b = 2 * (2 : Int) ^ (b - 1) := by
    obtain ⟨k, rfl⟩ : ∃ k, b = k + 1 := ⟨b - 1, by omega⟩
    simp [pow_succ, mul_comm]
  simp only [IntType.convert, if_true]
  rw [h2]
  generalize (2 : Int) ^ (b - 1) = m at hlo hhi
  rw [Int.emod_eq_of_lt (by omega) (by omega)]
  omega

/-- For a signed type, `normalize` stores the magnitude of every input other
than the most negative value of the type. -/
theorem DynamicIntervalPolicy.normalize_eq_abs (b : Nat) (hb : 0 < b) (iv : Int)
    (hlo : (IntType.mk true b).minVal < iv) (hhi : iv ≤ (IntType.mk true b).maxVal) :
    DynamicIntervalPolicy.normalize ⟨true, b⟩ iv = some |iv| := by
  simp only [IntType.minVal, IntType.maxVal, if_true] at hlo hhi
  unfold DynamicIntervalPolicy.normalize
  simp only [if_true, IntType.maxVal]
  by_cases hneg : iv < 0
  · rw [if_pos hneg, abs_of_neg hneg]
    by_cases hw : b < 32
    · rw [if_pos hw, IntType.convert_of_fits b hb (-iv) (by omega) (by omega)]
    · rw [if_neg hw, if_pos (by omega)]
  · rw [if_neg hneg, abs_of_nonneg (by omega)]

/-- For an unsigned type, `normalize` stores its input. -/
theorem DynamicIntervalPolicy.normalize_unsigned (b : Nat) (iv : Int) :
    DynamicIntervalPolicy.normalize ⟨false, b⟩ iv = some iv := by
  simp [DynamicIntervalPolicy.normalize]

theorem VTimer.mem_emplace (s : VTimer.State) (t : Nat) : t ∈ (VTimer.emplace s t).m_timers := by
  unfold VTimer.emplace
  by_cases h : t ∈ s.m_timers
  · rw [if_pos h]; exact h
  · rw [if_neg h]; simp

theorem VTimer.emplace_of_mem (s : VTimer.State) (t : Nat) (h : t ∈ s.m_timers) :
    VTimer.emplace s t = s := by
  unfold VTimer.emplace
  rw [if_pos h]

theorem VTimer.emplace_of_not_mem (s : VTimer.State) (t : Nat) (h : t ∉ s.m_timers) :
    VTimer.emplace s t
      = { objs := VTimer.setCounter s.objs t 0, m_timers := s.m_timers ++ [t] } := by
  unfold VTimer.emplace
  rw [if_neg h]

theorem VTimer.erase_m_timers (s : VTimer.State) (t : Nat) :
    (VTimer.erase s t).m_timers = s.m_timers.erase t ∧ (VTimer.erase s t).objs = s.objs := by
  unfold VTimer.erase
  by_cases h : t ∈ s.m_timers
  · rw [if_pos h]; exact ⟨rfl, rfl⟩
  · rw [if_neg h]; exact ⟨(List.erase_of_not_mem h).symm, rfl⟩

/-! ## Re-arming a one-shot timer -/

/-- C11: on a started 32-bit OneShotITimer, in particular one that has already
reported expiry, next(now2) clears expired and keeps started and the interval;
then every isExpired(n) with (n - now2) mod 2^32 below the interval returns
false and changes nothing, and the first isExpired(now) with
(now - now2) mod 2^32 at least the interval returns true and sets expired. -/
theorem OneShotITimer.next_rearms_fired (t : OneShotITimer) (now2 now : Nat)
    (nows : List Nat) (hs : t.started = true) (h2 : now2 < 2 ^ 32) (hn : now < 2 ^ 32)
    (hnows : ∀ n ∈ nows,
      n < 2 ^ 32 ∧ ((n : Int) - (now2 : Int)) % 2 ^ 32 < (t.base.getInterval : Int))
    (hge : (t.base.getInterval : Int) ≤ ((now : Int) - (now2 : Int)) % 2 ^ 32) :
    (t.next now2).expired = false ∧
      (t.next now2).started = true ∧
      (t.next now2).base.getInterval = t.base.getInterval ∧
      OneShotITimer.run 32 (t.next now2) (nows.map OneShotITimer.Call.isExpired)
        = some (List.replicate nows.length false, t.next now2) ∧
      (t.next now2).isExpired 32 now = (true, { t.next now2 with expired := true }) := by
  refine ⟨rfl, hs, rfl, ?_, ?_⟩
  · apply OneShotITimer.run_armed_pending 32 (t.next now2) hs rfl
    intro n hmem
    obtain ⟨hn1, hn2⟩ := hnows n hmem
    rw [StackITimer.isExpired_32_eq (t.next now2).base n h2 hn1]
    exact decide_eq_false (not_le.mpr hn2)
  · have hb : (t.next now2).base.isExpired 32 now = true := by
      rw [StackITimer.isExpired_32_eq (t.next now2).base now h2 hn]
      exact decide_eq_true hge
    have hs1 : (t.next now2).started = true := hs
    have he1 : (t.next now2).expired = false := rfl
    simp only [OneShotITimer.isExpired, hs1, he1, hb]
    rfl

theorem OneShotITimer.next_rearms_fired_witness :
    ((OneShotITimer.mk ⟨.Dynamic 100, 0⟩ true true).next 4294967290).expired = false ∧
      ((OneShotITimer.mk ⟨.Dynamic 100, 0⟩ true true).next 4294967290).started = true ∧
      ((OneShotITimer.mk ⟨.Dynamic 100, 0⟩ true true).next 4294967290).base.getInterval
        = (OneShotITimer.mk ⟨.Dynamic 100, 0⟩ true true).base.getInterval ∧
      OneShotITimer.run 32 ((OneShotITimer.mk ⟨.Dynamic 100, 0⟩ true true).next 4294967290)
          ([4294967295, 3, 93].map OneShotITimer.Call.isExpired)
        = some (List.replicate [4294967295, 3, 93].length false,
            (OneShotITimer.mk ⟨.Dynamic 100, 0⟩ true true).next 4294967290) ∧
      ((OneShotITimer.mk ⟨.Dynamic 100, 0⟩ true true).next 4294967290).isExpired 32 94
        = (true, { (OneShotITimer.mk ⟨.Dynamic 100, 0⟩ true true).next 4294967290 with
            expired := true }) :=
  OneShotITimer.next_rearms_fired (OneShotITimer.mk ⟨.Dynamic 100, 0⟩ true true) 4294967290 94
    [4294967295, 3, 93] rfl (by decide) (by decide) (by decide) (by decide)

/-! ## Normalisation of the dynamic interval -/

/-- C12: for the signed 8-bit type, the constructor and setInterval called with
the negative input -128 store -128, not its magnitude 128, and getInterval()
returns -128 afterwards; for the signed 32-bit type the negation of the most
negative input overflows and no value is defined. -/
theorem DynamicIntervalPolicy.normalize_most_negative_not_magnitude :
    DynamicIntervalPolicy.ctor ⟨true, 8⟩ (-128) = some ⟨-128⟩ ∧
      DynamicIntervalPolicy.setInterval ⟨true, 8⟩ ⟨5⟩ (-128) = some ⟨-128⟩ ∧
      (DynamicIntervalPolicy.mk (-128)).getInterval ≠ |(-128 : Int)| ∧
      (IntType.mk true 8).minVal ≤ -128 ∧
      DynamicIntervalPolicy.ctor ⟨true, 32⟩ (-2147483648) = none ∧
      DynamicIntervalPolicy.setInterval ⟨true, 32⟩ ⟨5⟩ (-2147483648) = none := by
  refine ⟨by decide, by decide, ?_, by decide, by decide, by decide⟩
  simp [DynamicIntervalPolicy.getInterval]

/-- C13: for the signed 8-bit and 16-bit types, after construction with the
most negative value of the type and after setInterval of that value,
getInterval() is negative; for the signed 32-bit and 64-bit types the negation
overflows and no value is defined. -/
theorem DynamicIntervalPolicy.getInterval_negative_at_min :
    (∃ p, DynamicIntervalPolicy.ctor ⟨true, 8⟩ (IntType.mk true 8).minVal = some p ∧
        p.getInterval < 0) ∧
      (∃ p, DynamicIntervalPolicy.setInterval ⟨true, 8⟩ ⟨0⟩ (IntType.mk true 8).minVal = some p ∧
        p.getInterval < 0) ∧
      (∃ p, DynamicIntervalPolicy.ctor ⟨true, 16⟩ (IntType.mk true 16).minVal = some p ∧
        p.getInterval < 0) ∧
      (∃ p, DynamicIntervalPolicy.setInterval ⟨true, 16⟩ ⟨0⟩ (IntType.mk true 16).minVal
          = some p ∧ p.getInterval < 0) ∧
      DynamicIntervalPolicy.ctor ⟨true, 32⟩ (IntType.mk true 32).minVal = none ∧
      DynamicIntervalPolicy.ctor ⟨true, 64⟩ (IntType.mk true 64).minVal = none :=
  ⟨⟨⟨-128⟩, by decide, by decide⟩, ⟨⟨-128⟩, by decide, by decide⟩,
    ⟨⟨-32768⟩, by decide, by decide⟩, ⟨⟨-32768⟩, by decide, by decide⟩,
    by decide, by decide⟩

/-! ## Virtual timer and registry -/

/-- C14: in a registry state where each timer is registered at most once, one
invocation of the tick handler changes the counter c of a registered timer to
c - 1 when c is not 0 and leaves it at 0 when c is 0; and in any state no
counter of the 32-bit counter type grows, so none wraps below zero. -/
theorem VTimer.tick_handler_step (s : VTimer.State) (t : Nat) (hnd : s.m_timers.Nodup)
    (ht : t ∈ s.m_timers) (hc : (s.objs t).m_counter < 2 ^ 32) :
    ((VTimer.HAL_SYSTICK_Callback s).objs t).m_counter
        = (if (s.objs t).m_counter ≠ 0 then (s.objs t).m_counter - 1 else 0) ∧
      ∀ u, (s.objs u).m_counter < 2 ^ 32 →
        ((VTimer.HAL_SYSTICK_Callback s).objs u).m_counter ≤ (s.objs u).m_counter := by
  constructor
  · rw [VTimer.proceed_counter s t hc, List.count_eq_one_of_mem hnd ht]
    split_ifs <;> omega
  · intro u hu
    rw [VTimer.proceed_counter s u hu]
    omega

theorem VTimer.tick_handler_step_witness :
    ((VTimer.HAL_SYSTICK_Callback ⟨fun a => ⟨a⟩, [0, 7, 3]⟩).objs 7).m_counter
        = (if ((VTimer.State.mk (fun a => ⟨a⟩) [0, 7, 3]).objs 7).m_counter ≠ 0
            then ((VTimer.State.mk (fun a => ⟨a⟩) [0, 7, 3]).objs 7).m_counter - 1 else 0) ∧
      ∀ u, ((VTimer.State.mk (fun a => ⟨a⟩) [0, 7, 3]).objs u).m_counter < 2 ^ 32 →
        ((VTimer.HAL_SYSTICK_Callback ⟨fun a => ⟨a⟩, [0, 7, 3]⟩).objs u).m_counter
          ≤ ((VTimer.State.mk (fun a => ⟨a⟩) [0, 7, 3]).objs u).m_counter :=
  VTimer.tick_handler_step ⟨fun a => ⟨a⟩, [0, 7, 3]⟩ 7 (by decide) (by decide) (by decide)

/-- C15: a timer armed with a counter c of the 32-bit counter type, by the
constructor (which registers it) in any state or by next(c) on a registered
timer, and then only ticked, is expired after c invocations of the tick handler
and after any number j of further ones. -/
theorem VTimer.expired_after_c_ticks (s0 s1 : VTimer.State) (t c j : Nat) (hc : c < 2 ^ 32)
    (ht : t ∈ s1.m_timers) :
    ((VTimer.ticks (c + j) (VTimer.ctor s0 t c)).objs t).isExpired = true ∧
      ((VTimer.ticks (c + j) (VTimer.next s1 t c)).objs t).isExpired = true := by
  have key : ∀ s : VTimer.State, (s.objs t).m_counter = c → t ∈ s.m_timers →
      ((VTimer.ticks (c + j) s).objs t).isExpired = true := by
    intro s hsc hmem
    have h1 := VTimer.ticks_counter (c + j) s t (by rw [hsc]; exact hc)
    have hpos : 1 ≤ s.m_timers.count t := List.count_pos_iff.mpr hmem
    have hle : c ≤ (c + j) * s.m_timers.count t :=
      calc c ≤ (c + j) * 1 := by omega
        _ ≤ (c + j) * s.m_timers.count t := Nat.mul_le_mul_left _ hpos
    rw [hsc, Nat.sub_eq_zero_of_le hle] at h1
    simp [VTimer.isExpired, h1]
  constructor
  · exact key (VTimer.ctor s0 t c) (by simp [VTimer.ctor, VTimer.setCounter])
      (by simp [VTimer.ctor])
  · exact key (VTimer.next s1 t c) (by simp [VTimer.next, VTimer.setCounter]) ht

theorem VTimer.expired_after_c_ticks_witness :
    ((VTimer.ticks (3 + 2) (VTimer.ctor ⟨fun _ => ⟨9⟩, [4]⟩ 6 3)).objs 6).isExpired = true ∧
      ((VTimer.ticks (3 + 2) (VTimer.next ⟨fun _ => ⟨9⟩, [4, 6]⟩ 6 3)).objs 6).isExpired
        = true :=
  VTimer.expired_after_c_ticks ⟨fun _ => ⟨9⟩, [4]⟩ ⟨fun _ => ⟨9⟩, [4, 6]⟩ 6 3 2 (by decide)
    (by decide)

/-- C16: in a registry state where the timer is registered at most once, after
two consecutive emplace() calls the registry holds exactly one entry for it; in
every state the second emplace() changes neither the registry nor any counter,
and emplace() on a registered timer changes nothing at all, so the number of
its entries stays what it was. -/
theorem VTimer.emplace_twice (s : VTimer.State) (t : Nat)
    (hone : s.m_timers.count t ≤ 1) (s1 : VTimer.State) :
    (VTimer.emplace (VTimer.emplace s t) t).m_timers.count t = 1 ∧
      VTimer.emplace (VTimer.emplace s1 t) t = VTimer.emplace s1 t ∧
      (t ∈ s1.m_timers → VTimer.emplace s1 t = s1 ∧
        (VTimer.emplace (VTimer.emplace s1 t) t).m_timers.count t = s1.m_timers.count t) := by
  have hidem : ∀ s2 : VTimer.State,
      VTimer.emplace (VTimer.emplace s2 t) t = VTimer.emplace s2 t :=
    fun s2 => VTimer.emplace_of_mem _ t (VTimer.mem_emplace s2 t)
  refine ⟨?_, hidem s1, ?_⟩
  · rw [hidem s]
    by_cases h : t ∈ s.m_timers
    · rw [VTimer.emplace_of_mem s t h]
      have := List.count_pos_iff.mpr h
      omega
    · rw [VTimer.emplace_of_not_mem s t h]
      simp [List.count_eq_zero_of_not_mem h]
  · intro h
    rw [hidem s1, VTimer.emplace_of_mem s1 t h]
    exact ⟨rfl, rfl⟩

theorem VTimer.emplace_twice_witness :
    (VTimer.emplace (VTimer.emplace ⟨fun _ => ⟨9⟩, [4, 6]⟩ 6) 6).m_timers.count 6 = 1 ∧
      VTimer.emplace (VTimer.emplace ⟨fun _ => ⟨9⟩, [4]⟩ 6) 6
        = VTimer.emplace ⟨fun _ => ⟨9⟩, [4]⟩ 6 ∧
      (6 ∈ (VTimer.State.mk (fun _ => ⟨9⟩) [4]).m_timers →
        VTimer.emplace ⟨fun _ => ⟨9⟩, [4]⟩ 6 = ⟨fun _ => ⟨9⟩, [4]⟩ ∧
          (VTimer.emplace (VTimer.emplace ⟨fun _ => ⟨9⟩, [4]⟩ 6) 6).m_timers.count 6
            = (VTimer.State.mk (fun _ => ⟨9⟩) [4]).m_timers.count 6) :=
  VTimer.emplace_twice ⟨fun _ => ⟨9⟩, [4, 6]⟩ 6 (by decide) ⟨fun _ => ⟨9⟩, [4]⟩

/-- C17: emplace() on a timer absent from the registry appends it as the last
entry and sets its counter to 0, leaving the other entries, their order and
every other counter unchanged; and in a state where the timer is registered at
most once, erase() followed by emplace() leaves it registered exactly once, as
the last entry, with counter 0. -/
theorem VTimer.emplace_absent (s : VTimer.State) (t : Nat) (h : t ∉ s.m_timers)
    (s1 : VTimer.State) (hone : s1.m_timers.count t ≤ 1) :
    (VTimer.emplace s t).m_timers = s.m_timers ++ [t] ∧
      (∀ u, (VTimer.emplace s t).objs u = if u = t then ⟨0⟩ else s.objs u) ∧
      (VTimer.emplace (VTimer.erase s1 t) t).m_timers = s1.m_timers.erase t ++ [t] ∧
      (VTimer.emplace (VTimer.erase s1 t) t).m_timers.count t = 1 ∧
      ((VTimer.emplace (VTimer.erase s1 t) t).objs t).m_counter = 0 := by
  obtain ⟨he1, he2⟩ := VTimer.erase_m_timers s1 t
  have hc0 : (s1.m_timers.erase t).count t = 0 := by
    rw [List.count_erase_self]; omega
  have habs : t ∉ (VTimer.erase s1 t).m_timers := by
    rw [he1]; exact List.count_eq_zero.mp hc0
  rw [VTimer.emplace_of_not_mem s t h, VTimer.emplace_of_not_mem _ t habs, he1]
  refine ⟨rfl, fun u => rfl, rfl, ?_, ?_⟩
  · simp [hc0]
  · simp [VTimer.setCounter]

theorem VTimer.emplace_absent_witness :
    (VTimer.emplace ⟨fun _ => ⟨9⟩, [4, 6]⟩ 5).m_timers
        = (VTimer.State.mk (fun _ => ⟨9⟩) [4, 6]).m_timers ++ [5] ∧
      (∀ u, (VTimer.emplace ⟨fun _ => ⟨9⟩, [4, 6]⟩ 5).objs u
        = if u = 5 then ⟨0⟩ else (VTimer.State.mk (fun _ => ⟨9⟩) [4, 6]).objs u) ∧
      (VTimer.emplace (VTimer.erase ⟨fun _ => ⟨9⟩, [5, 4, 6]⟩ 5) 5).m_timers
        = (VTimer.State.mk (fun _ => ⟨9⟩) [5, 4, 6]).m_timers.erase 5 ++ [5] ∧
      (VTimer.emplace (VTimer.erase ⟨fun _ => ⟨9⟩, [5, 4, 6]⟩ 5) 5).m_timers.count 5 = 1 ∧
      ((VTimer.emplace (VTimer.erase ⟨fun _ => ⟨9⟩, [5, 4, 6]⟩ 5) 5).objs 5).m_counter = 0 :=
  VTimer.emplace_absent ⟨fun _ => ⟨9⟩, [4, 6]⟩ 5 (by decide) ⟨fun _ => ⟨9⟩, [5, 4, 6]⟩
    (by decide)

/-- C18 (as stated, refuted): for a timer registered with counter 5, timeLeft()
is still 5 and isExpired() is false immediately after emplace(). -/
theorem VTimer.emplace_registered_keeps_counter :
    ((VTimer.emplace ⟨fun _ => ⟨5⟩, [1, 2]⟩ 1).objs 1).timeLeft = 5 ∧
      ((VTimer.emplace ⟨fun _ => ⟨5⟩, [1, 2]⟩ 1).objs 1).isExpired = false ∧
      ¬ ((VTimer.emplace ⟨fun _ => ⟨5⟩, [1, 2]⟩ 1).objs 1).timeLeft = 0 := by
  decide

/-- C18 (amended): immediately after emplace(), timeLeft() is 0 and isExpired()
is true when the timer was not registered, and timeLeft() and isExpired() are
what they were before when the timer was already registered. -/
theorem VTimer.emplace_timeLeft (s : VTimer.State) (t : Nat) :
    ((VTimer.emplace s t).objs t).timeLeft
        = (if t ∈ s.m_timers then (s.objs t).timeLeft else 0) ∧
      ((VTimer.emplace s t).objs t).isExpired
        = (if t ∈ s.m_timers then (s.objs t).isExpired else true) := by
  by_cases h : t ∈ s.m_timers
  · rw [VTimer.emplace_of_mem s t h, if_pos h, if_pos h]
    exact ⟨rfl, rfl⟩
  · rw [VTimer.emplace_of_not_mem s t h, if_neg h, if_neg h]
    simp [VTimer.timeLeft, VTimer.isExpired, VTimer.setCounter]

/-- C19: in a registry state where each timer is registered at most once,
after erase(), and likewise after the destructor, the timer is absent, the
registry is the previous one without that entry, the others in their previous
order, and no counter has changed; erase() and the destructor of a timer that
is not registered change nothing. -/
theorem VTimer.erase_removes (s : VTimer.State) (t : Nat) (hnd : s.m_timers.Nodup) :
    t ∉ (VTimer.erase s t).m_timers ∧
      (VTimer.erase s t).m_timers = s.m_timers.filter (fun u => u != t) ∧
      (VTimer.erase s t).objs = s.objs ∧
      VTimer.dtor s t = VTimer.erase s t ∧
      (t ∉ s.m_timers → VTimer.erase s t = s ∧ VTimer.dtor s t = s) := by
  obtain ⟨he1, he2⟩ := VTimer.erase_m_timers s t
  refine ⟨?_, ?_, he2, rfl, ?_⟩
  · rw [he1, hnd.mem_erase_iff]
    exact fun h => h.1 rfl
  · rw [he1, hnd.erase_eq_filter]
  · intro h
    simp [VTimer.erase, VTimer.dtor, h]

theorem VTimer.erase_removes_witness :
    6 ∉ (VTimer.erase ⟨fun a => ⟨a⟩, [4, 6, 8]⟩ 6).m_timers ∧
      (VTimer.erase ⟨fun a => ⟨a⟩, [4, 6, 8]⟩ 6).m_timers
        = (VTimer.State.mk (fun a => ⟨a⟩) [4, 6, 8]).m_timers.filter (fun u => u != 6) ∧
      (VTimer.erase ⟨fun a => ⟨a⟩, [4, 6, 8]⟩ 6).objs
        = (VTimer.State.mk (fun a => ⟨a⟩) [4, 6, 8]).objs ∧
      VTimer.dtor ⟨fun a => ⟨a⟩, [4, 6, 8]⟩ 6 = VTimer.erase ⟨fun a => ⟨a⟩, [4, 6, 8]⟩ 6 ∧
      (6 ∉ (VTimer.State.mk (fun a => ⟨a⟩) [4, 6, 8]).m_timers →
        VTimer.erase ⟨fun a => ⟨a⟩, [4, 6, 8]⟩ 6 = ⟨fun a => ⟨a⟩, [4, 6, 8]⟩ ∧
          VTimer.dtor ⟨fun a => ⟨a⟩, [4, 6, 8]⟩ 6 = ⟨fun a => ⟨a⟩, [4, 6, 8]⟩) :=
  VTimer.erase_removes ⟨fun a => ⟨a⟩, [4, 6, 8]⟩ 6 (by decide)

/-- C20: constructing VTimer(delay) at a new address appends that address as
the last entry of the registry and sets the new counter to delay, leaving the
existing entries and every other counter unchanged; with the default argument
the counter is 0 and the timer is expired at once. -/
theorem VTimer.ctor_registers (s : VTimer.State) (this delay : Nat) :
    (VTimer.ctor s this delay).m_timers = s.m_timers ++ [this] ∧
      ((VTimer.ctor s this delay).objs this).m_counter = delay ∧
      (∀ u, (VTimer.ctor s this delay).objs u = if u = this then ⟨delay⟩ else s.objs u) ∧
      (VTimer.ctorDefault s this).m_timers = s.m_timers ++ [this] ∧
      ((VTimer.ctorDefault s this).objs this).m_counter = 0 ∧
      ((VTimer.ctorDefault s this).objs this).isExpired = true := by
  refine ⟨rfl, ?_, fun u => rfl, rfl, ?_, ?_⟩ <;>
    simp [VTimer.ctor, VTimer.ctorDefault, VTimer.setCounter, VTimer.isExpired]

/-! ## Helper lemmas for the adapters, the countdown and the conversions -/

/-- The value `elapsed` returns is the integer difference reduced modulo
`2 ^ w`, at every width. -/
theorem elapsed_eq_emod (w a b : Nat) (ha : a < 2 ^ w) (hb : b < 2 ^ w) :
    ((toT w (subExpr w a b) : Nat) : Int) = ((a : Int) - (b : Int)) % (2 : Int) ^ w := by
  by_cases hw : w < 32
  · unfold subExpr toT
    rw [if_pos hw]
    exact Int.toNat_of_nonneg (Int.emod_nonneg _ (by positivity))
  · rw [subExpr_wide w a b (by omega), toT_natCast_mod, wrap_eq_emod w a b ha hb]

theorem toT_natCast_of_lt (w n : Nat) (h : n < 2 ^ w) : toT w (n : Int) = n := by
  have h1 := toT_natCast_mod w n
  rwa [Nat.mod_eq_of_lt h] at h1

theorem subExpr_self (w t : Nat) (ht : t < 2 ^ w) : subExpr w t t = 0 := by
  unfold subExpr
  split_ifs
  · omega
  · have e : t + (2 ^ w - t) = 2 ^ w := by omega
    rw [e, Nat.mod_self]
    rfl

theorem subExpr_zero (w i : Nat) (hi : i < 2 ^ w) : subExpr w i 0 = (i : Int) := by
  unfold subExpr
  split_ifs
  · simp
  · rw [Nat.sub_zero, Nat.add_mod_right, Nat.mod_eq_of_lt hi]

/-- A periodic timer read at the sample it was stamped with: nothing has
elapsed, the whole interval is left, and it is not expired when the interval is
positive. -/
theorem StackITimer.at_lastTime (w : Nat) (o : StackITimer)
    (ht : o.lastTime < 2 ^ w) (hi : o.getInterval < 2 ^ w) :
    o.elapsed w o.lastTime = 0 ∧ o.timeLeft w o.lastTime = o.getInterval ∧
      (0 < o.getInterval → o.isExpired w o.lastTime = false) := by
  have h0 : toT w (subExpr w o.lastTime o.lastTime) = 0 := by
    rw [subExpr_self w _ ht]
    simp [toT]
  refine ⟨h0, ?_, ?_⟩
  · unfold StackITimer.timeLeft
    simp only [h0]
    by_cases hz : o.getInterval ≤ 0
    · rw [if_pos hz]; omega
    · rw [if_neg hz, subExpr_zero w _ hi, toT_natCast_of_lt w _ hi]
  · intro hpos
    unfold StackITimer.isExpired
    rw [subExpr_self w _ ht]
    simp only [decide_eq_false_iff_not, not_le]
    exact_mod_cast hpos

/-- The quotient `(a + (d - 1)) / d` is the ceiling of `a / d`. -/
theorem ceil_div_eq (a d : Nat) (hd : 0 < d) :
    ⌈((a : ℚ) / (d : ℚ))⌉₊ = (a + (d - 1)) / d := by
  have hdq : (0 : ℚ) < (d : ℚ) := by exact_mod_cast hd
  apply le_antisymm
  · rw [Nat.ceil_le, div_le_iff₀ hdq]
    have h1 : a + (d - 1) < d * ((a + (d - 1)) / d + 1) := Nat.lt_mul_div_succ _ hd
    have h2 : a ≤ (a + (d - 1)) / d * d := by
      rw [Nat.mul_add, Nat.mul_comm d] at h1
      omega
    exact_mod_cast h2
  · have h1 : ((a : ℚ) / (d : ℚ)) ≤ ((⌈((a : ℚ) / (d : ℚ))⌉₊ : Nat) : ℚ) := Nat.le_ceil _
    rw [div_le_iff₀ hdq] at h1
    have h2 : a ≤ ⌈((a : ℚ) / (d : ℚ))⌉₊ * d := by exact_mod_cast h1
    rw [← Nat.lt_succ_iff, Nat.div_lt_iff_lt_mul hd, Nat.succ_mul]
    omega

/-- The loop of `proceed()` leaves the object of a timer without entry as it
is. -/
theorem VTimer.foldl_proceedOne_not_mem (l : List Nat) :
    ∀ (objs : Nat → VTimer) (t : Nat), t ∉ l →
      (l.foldl VTimer.proceedOne objs) t = objs t := by
  induction l with
  | nil => intro objs t _; rfl
  | cons a l ih =>
    intro objs t h
    have ha : ¬ t = a := fun e => h (e ▸ List.mem_cons_self _ _)
    have hl : t ∉ l := fun e => h (List.mem_cons_of_mem _ e)
    rw [List.foldl_cons, ih _ t hl]
    unfold VTimer.proceedOne
    by_cases hz : (objs a).m_counter = 0
    · simp [hz]
    · simp [hz, VTimer.setCounter, ha]

theorem VTimer.ticks_not_mem (k : Nat) :
    ∀ (s : VTimer.State) (t : Nat), t ∉ s.m_timers → (VTimer.ticks k s).objs t = s.objs t := by
  induction k with
  | zero => intro s t _; rfl
  | succ k ih =>
    intro s t h
    rw [VTimer.ticks, ih (VTimer.HAL_SYSTICK_Callback s) t h]
    exact VTimer.foldl_proceedOne_not_mem s.m_timers s.objs t h

/-! ## Virtual timer: rearm, stop and the stack timer on top -/

/-- C21: VTimer::next(delay) sets the counter of the calling timer to delay and
VTimer::stop() sets it to 0, so that isExpired() is true right after stop();
both leave the registry list and every other counter as they were. -/
theorem VTimer.next_stop_frame (s : VTimer.State) (t delay : Nat) :
    ((VTimer.next s t delay).objs t).m_counter = delay ∧
      (VTimer.next s t delay).m_timers = s.m_timers ∧
      (∀ u, (VTimer.next s t delay).objs u = if u = t then ⟨delay⟩ else s.objs u) ∧
      ((VTimer.stop s t).objs t).m_counter = 0 ∧
      ((VTimer.stop s t).objs t).isExpired = true ∧
      (VTimer.stop s t).m_timers = s.m_timers ∧
      (∀ u, (VTimer.stop s t).objs u = if u = t then ⟨0⟩ else s.objs u) := by
  refine ⟨?_, rfl, fun u => rfl, ?_, ?_, rfl, fun u => rfl⟩ <;>
    simp [VTimer.next, VTimer.stop, VTimer.setCounter, VTimer.isExpired]

/-- C22: for an interval that fits the 32-bit VTimer counter (as every value of
reg does), StackVTimer::next(now) sets the counter to the policy's interval and
lastTime to now and keeps the policy; next(now, interval) on a dynamic instance
sets the policy interval, the counter and lastTime to interval, interval and
now; afterwards elapsed(now2) is (now2 - now) mod 2^w, computed from the sample
and lastTime alone, the same after any number of ticks. -/
theorem StackVTimer.next_rearms (w : Nat) (s : VTimer.State) (v : StackVTimer)
    (now now2 interval this iv0 lt k : Nat) (hi : v.getInterval < 2 ^ 32)
    (hnew : interval < 2 ^ 32) (hn : now < 2 ^ w) (hn2 : now2 < 2 ^ w) :
    (((v.next s now).1.objs v.this).m_counter = v.getInterval ∧
        (v.next s now).2.lastTime = now ∧
        (v.next s now).2.policy = v.policy ∧
        (v.next s now).1.m_timers = s.m_timers ∧
        ((v.next s now).2.elapsed w now2 : Int) = ((now2 : Int) - (now : Int)) % 2 ^ w ∧
        (StackVTimer.ticks k (v.next s now)).2.elapsed w now2
          = (v.next s now).2.elapsed w now2) ∧
      ∃ r, StackVTimer.nextWith s ⟨this, .Dynamic iv0, lt⟩ now interval = some r ∧
        r.2.getInterval = interval ∧ (r.1.objs this).m_counter = interval ∧
        r.2.lastTime = now ∧ r.1.m_timers = s.m_timers ∧
        (r.2.elapsed w now2 : Int) = ((now2 : Int) - (now : Int)) % 2 ^ w ∧
        (StackVTimer.ticks k r).2.elapsed w now2 = r.2.elapsed w now2 := by
  have he := elapsed_eq_emod w now2 now hn2 hn
  refine ⟨⟨?_, rfl, rfl, rfl, he, rfl⟩, ?_⟩
  · simp only [StackVTimer.next, VTimer.next, VTimer.setCounter, StackVTimer.toReg, if_true]
    exact Nat.mod_eq_of_lt hi
  · refine ⟨(VTimer.next s this (StackVTimer.toReg interval),
      ⟨this, .Dynamic interval, now⟩), rfl, rfl, ?_, rfl, rfl, he, rfl⟩
    simp only [VTimer.next, VTimer.setCounter, StackVTimer.toReg, if_true]
    exact Nat.mod_eq_of_lt hnew

theorem StackVTimer.next_rearms_witness :
    ((((StackVTimer.mk 7 (.Dynamic 100) 0).next ⟨fun _ => ⟨0⟩, [7]⟩ 4294967290).1.objs
          (StackVTimer.mk 7 (.Dynamic 100) 0).this).m_counter
          = (StackVTimer.mk 7 (.Dynamic 100) 0).getInterval ∧
        ((StackVTimer.mk 7 (.Dynamic 100) 0).next ⟨fun _ => ⟨0⟩, [7]⟩ 4294967290).2.lastTime
          = 4294967290 ∧
        ((StackVTimer.mk 7 (.Dynamic 100) 0).next ⟨fun _ => ⟨0⟩, [7]⟩ 4294967290).2.policy
          = (StackVTimer.mk 7 (.Dynamic 100) 0).policy ∧
        ((StackVTimer.mk 7 (.Dynamic 100) 0).next ⟨fun _ => ⟨0⟩, [7]⟩ 4294967290).1.m_timers
          = (VTimer.State.mk (fun _ => ⟨0⟩) [7]).m_timers ∧
        ((((StackVTimer.mk 7 (.Dynamic 100) 0).next ⟨fun _ => ⟨0⟩, [7]⟩ 4294967290).2.elapsed
            32 4 : Nat) : Int) = (((4 : Nat) : Int) - ((4294967290 : Nat) : Int)) % 2 ^ 32 ∧
        (StackVTimer.ticks 3
            ((StackVTimer.mk 7 (.Dynamic 100) 0).next ⟨fun _ => ⟨0⟩, [7]⟩ 4294967290)).2.elapsed
            32 4
          = ((StackVTimer.mk 7 (.Dynamic 100) 0).next ⟨fun _ => ⟨0⟩, [7]⟩
              4294967290).2.elapsed 32 4) ∧
      ∃ r, StackVTimer.nextWith ⟨fun _ => ⟨0⟩, [7]⟩ ⟨7, .Dynamic 1, 2⟩ 4294967290 50 = some r ∧
        r.2.getInterval = 50 ∧ (r.1.objs 7).m_counter = 50 ∧
        r.2.lastTime = 4294967290 ∧
        r.1.m_timers = (VTimer.State.mk (fun _ => ⟨0⟩) [7]).m_timers ∧
        ((r.2.elapsed 32 4 : Nat) : Int)
          = (((4 : Nat) : Int) - ((4294967290 : Nat) : Int)) % 2 ^ 32 ∧
        (StackVTimer.ticks 3 r).2.elapsed 32 4 = r.2.elapsed 32 4 :=
  StackVTimer.next_rearms 32 ⟨fun _ => ⟨0⟩, [7]⟩ (StackVTimer.mk 7 (.Dynamic 100) 0)
    4294967290 4 50 7 1 2 3 (by decide) (by decide) (by decide) (by decide)

/-! ## Time-base adapters -/

/-- C24: when the time source returns t during construction, an ITimeBase built
by the dynamic constructor with any initial interval iv, or by the static
constructor, has lastTime = t; read at the same sample t, elapsed is 0,
timeLeft is the whole interval, and isExpired is false when the interval is
positive. -/
theorem ITimeBase.ctor_arms (w iv Interval t : Nat) (ht : t < 2 ^ w) (hiv : iv < 2 ^ w)
    (hI : Interval < 2 ^ w) (hI0 : Interval ≠ 0) :
    ((ITimeBase.ctor 0 iv t).base.lastTime = t ∧
        (ITimeBase.ctor 0 iv t).base.getInterval = iv ∧
        (ITimeBase.ctor 0 iv t).elapsed w t = 0 ∧
        (ITimeBase.ctor 0 iv t).timeLeft w t = iv ∧
        (0 < iv → (ITimeBase.ctor 0 iv t).isExpired w t = false)) ∧
      ((ITimeBase.ctor Interval 0 t).base.lastTime = t ∧
        (ITimeBase.ctor Interval 0 t).base.getInterval = Interval ∧
        (ITimeBase.ctor Interval 0 t).elapsed w t = 0 ∧
        (ITimeBase.ctor Interval 0 t).timeLeft w t = Interval ∧
        (ITimeBase.ctor Interval 0 t).isExpired w t = false) := by
  have hd : (ITimeBase.ctor 0 iv t).base = ⟨.Dynamic iv, t⟩ := rfl
  have hs : (ITimeBase.ctor Interval 0 t).base = ⟨.Static Interval, t⟩ := by
    simp [ITimeBase.ctor, ITimeBase.next, StackITimer.ctor, StackITimer.next,
      IntervalPolicy.select, hI0]
  obtain ⟨d1, d2, d3⟩ := StackITimer.at_lastTime w ⟨.Dynamic iv, t⟩ ht hiv
  obtain ⟨s1, s2, s3⟩ := StackITimer.at_lastTime w ⟨.Static Interval, t⟩ ht hI
  refine ⟨⟨rfl, rfl, ?_, ?_, ?_⟩, ⟨?_, ?_, ?_, ?_, ?_⟩⟩
  · rw [ITimeBase.elapsed, hd]; exact d1
  · rw [ITimeBase.timeLeft, hd]; exact d2
  · intro hpos; rw [ITimeBase.isExpired, hd]; exact d3 hpos
  · rw [hs]
  · rw [hs]; rfl
  · rw [ITimeBase.elapsed, hs]; exact s1
  · rw [ITimeBase.timeLeft, hs]; exact s2
  · rw [ITimeBase.isExpired, hs]; exact s3 (Nat.pos_of_ne_zero hI0)

theorem ITimeBase.ctor_arms_witness :
    ((ITimeBase.ctor 0 100 4294967290).base.lastTime = 4294967290 ∧
        (ITimeBase.ctor 0 100 4294967290).base.getInterval = 100 ∧
        (ITimeBase.ctor 0 100 4294967290).elapsed 32 4294967290 = 0 ∧
        (ITimeBase.ctor 0 100 4294967290).timeLeft 32 4294967290 = 100 ∧
        (0 < 100 → (ITimeBase.ctor 0 100 4294967290).isExpired 32 4294967290 = false)) ∧
      ((ITimeBase.ctor 250 0 4294967290).base.lastTime = 4294967290 ∧
        (ITimeBase.ctor 250 0 4294967290).base.getInterval = 250 ∧
        (ITimeBase.ctor 250 0 4294967290).elapsed 32 4294967290 = 0 ∧
        (ITimeBase.ctor 250 0 4294967290).timeLeft 32 4294967290 = 250 ∧
        (ITimeBase.ctor 250 0 4294967290).isExpired 32 4294967290 = false) :=
  ITimeBase.ctor_arms 32 100 250 4294967290 (by decide) (by decide) (by decide) (by decide)

/-- C25 (as stated, refuted): a dynamic OneShotIBase constructed with interval
100 while the time source returns 5 has lastTime 0, not 5, and expired = true,
and elapsed() read at the same sample 5 is 5, not 0. -/
theorem OneShotIBase.ctor_does_not_stamp :
    (OneShotIBase.ctor 0 100 5).base.base.lastTime = 0 ∧
      (OneShotIBase.ctor 0 100 5).base.base.lastTime ≠ 5 ∧
      (OneShotIBase.ctor 0 100 5).base.expired = true ∧
      (OneShotIBase.ctor 0 100 5).elapsed 32 5 = 5 ∧
      (OneShotIBase.ctor 0 100 5).elapsed 32 5 ≠ 0 := by
  decide

/-- C25 (amended): OneShotIBase inherits its constructors and does not invoke
next() at construction: whatever the time source returns, afterwards
lastTime = 0, started = false and expired = true, elapsed() read at a sample t
is t and isExpired() returns false; it is an explicit next() with the time
source at t that gives lastTime = t and expired = false, after which elapsed()
read at the same sample t is 0. -/
theorem OneShotIBase.ctor_inherited (w Interval iv t t0 : Nat) (ht : t < 2 ^ w) :
    (OneShotIBase.ctor Interval iv t0).base.base.lastTime = 0 ∧
      (OneShotIBase.ctor Interval iv t0).base.started = false ∧
      (OneShotIBase.ctor Interval iv t0).base.expired = true ∧
      (OneShotIBase.ctor Interval iv t0).elapsed w t = t ∧
      ((OneShotIBase.ctor Interval iv t0).isExpired w t).1 = false ∧
      ((OneShotIBase.ctor Interval iv t0).next t).base.base.lastTime = t ∧
      ((OneShotIBase.ctor Interval iv t0).next t).base.expired = false ∧
      ((OneShotIBase.ctor Interval iv t0).next t).elapsed w t = 0 := by
  refine ⟨rfl, rfl, rfl, ?_, ?_, rfl, rfl, ?_⟩
  · show toT w (subExpr w t 0) = t
    rw [subExpr_zero w t ht, toT_natCast_of_lt w t ht]
  · show ((OneShotIBase.ctor Interval iv t0).base.isExpired w t).1 = false
    rw [OneShotITimer.isExpired_of_not_started w _ t rfl]
  · show toT w (subExpr w t t) = 0
    rw [subExpr_self w t ht]
    simp [toT]

theorem OneShotIBase.ctor_inherited_witness :
    (OneShotIBase.ctor 0 100 5).base.base.lastTime = 0 ∧
      (OneShotIBase.ctor 0 100 5).base.started = false ∧
      (OneShotIBase.ctor 0 100 5).base.expired = true ∧
      (OneShotIBase.ctor 0 100 5).elapsed 32 9 = 9 ∧
      ((OneShotIBase.ctor 0 100 5).isExpired 32 9).1 = false ∧
      ((OneShotIBase.ctor 0 100 5).next 9).base.base.lastTime = 9 ∧
      ((OneShotIBase.ctor 0 100 5).next 9).base.expired = false ∧
      ((OneShotIBase.ctor 0 100 5).next 9).elapsed 32 9 = 0 :=
  OneShotIBase.ctor_inherited 32 0 100 9 5 (by decide)

/-! ## Hardware timer source and cycle conversions -/

/-- C26: attachTimer with a null handle, or with a handle whose instance is not
a timer peripheral, returns false and leaves the bound handle and the hardware
untouched (no start, no stop); with a valid handle it returns true and binds
that handle; while no handle is bound, now() returns 0 without any hardware
access and isAvailable() is false. -/
theorem HTimer.attachTimer_contract (hal : Hal) (s s0 : HTimer) (bad good : Nat)
    (hbad : hal.IS_TIM_INSTANCE bad = false) (hgood : hal.IS_TIM_INSTANCE good = true)
    (h0 : s0.htim = none) :
    HTimer.attachTimer hal s none = (false, s) ∧
      HTimer.attachTimer hal s (some bad) = (false, s) ∧
      (HTimer.attachTimer hal s (some good)).1 = true ∧
      (HTimer.attachTimer hal s (some good)).2.htim = some good ∧
      HTimer.now hal s0 = (0, s0) ∧
      HTimer.isAvailable s0 = false ∧
      (HTimer.now hal HTimer.init).1 = 0 ∧
      HTimer.isAvailable HTimer.init = false := by
  refine ⟨rfl, ?_, ?_, ?_, ?_, ?_, rfl, rfl⟩
  · simp [HTimer.attachTimer, hbad]
  · simp [HTimer.attachTimer, hgood]
  · simp only [HTimer.attachTimer, hgood, Bool.not_true, Bool.false_eq_true, if_false]
    split_ifs <;> rfl
  · simp [HTimer.now, h0]
  · simp [HTimer.isAvailable, h0]

theorem HTimer.attachTimer_contract_witness :
    HTimer.attachTimer ⟨fun a => a == 3, fun _ => 42⟩ ⟨some 3, [.Start 3]⟩ none
        = (false, ⟨some 3, [.Start 3]⟩) ∧
      HTimer.attachTimer ⟨fun a => a == 3, fun _ => 42⟩ ⟨some 3, [.Start 3]⟩ (some 4)
        = (false, ⟨some 3, [.Start 3]⟩) ∧
      (HTimer.attachTimer ⟨fun a => a == 3, fun _ => 42⟩ ⟨some 3, [.Start 3]⟩ (some 3)).1
        = true ∧
      (HTimer.attachTimer ⟨fun a => a == 3, fun _ => 42⟩ ⟨some 3, [.Start 3]⟩ (some 3)).2.htim
        = some 3 ∧
      HTimer.now ⟨fun a => a == 3, fun _ => 42⟩ ⟨none, [.Stop 3]⟩ = (0, ⟨none, [.Stop 3]⟩) ∧
      HTimer.isAvailable ⟨none, [.Stop 3]⟩ = false ∧
      (HTimer.now ⟨fun a => a == 3, fun _ => 42⟩ HTimer.init).1 = 0 ∧
      HTimer.isAvailable HTimer.init = false :=
  HTimer.attachTimer_contract ⟨fun a => a == 3, fun _ => 42⟩ ⟨some 3, [.Start 3]⟩
    ⟨none, [.Stop 3]⟩ 4 3 (by decide) (by decide) rfl

/-- C27: for a clock frequency f and durations for which the 64-bit
intermediate t * f + (unit - 1) does not overflow and the quotient fits in 32
bits, from_nano, from_micro and from_milli return the ceiling of t * f / 10^9,
t * f / 10^6 and t * f / 10^3, and the result is 0 only when t * f = 0. -/
theorem DwtBuilder.from_rounds_up (f tn tu tm : Nat)
    (hn : tn * f + 999999999 < 2 ^ 64) (hnq : (tn * f + 999999999) / 1000000000 < 2 ^ 32)
    (hu : tu * f + 999999 < 2 ^ 64) (huq : (tu * f + 999999) / 1000000 < 2 ^ 32)
    (hm : tm * f + 999 < 2 ^ 64) (hmq : (tm * f + 999) / 1000 < 2 ^ 32) :
    (DwtBuilder.from_nano f tn = ⌈((tn * f : Nat) : ℚ) / ((1000000000 : Nat) : ℚ)⌉₊ ∧
        (DwtBuilder.from_nano f tn = 0 → tn * f = 0)) ∧
      (DwtBuilder.from_micro f tu = ⌈((tu * f : Nat) : ℚ) / ((1000000 : Nat) : ℚ)⌉₊ ∧
        (DwtBuilder.from_micro f tu = 0 → tu * f = 0)) ∧
      (DwtBuilder.from_milli f tm = ⌈((tm * f : Nat) : ℚ) / ((1000 : Nat) : ℚ)⌉₊ ∧
        (DwtBuilder.from_milli f tm = 0 → tm * f = 0)) := by
  have key : ∀ (a d : Nat), 0 < d → a + (d - 1) < 2 ^ 64 → (a + (d - 1)) / d < 2 ^ 32 →
      ((a % 2 ^ 64 + (d - 1)) % 2 ^ 64 / d) % 2 ^ 32 = ⌈((a : Nat) : ℚ) / ((d : Nat) : ℚ)⌉₊ ∧
        (((a % 2 ^ 64 + (d - 1)) % 2 ^ 64 / d) % 2 ^ 32 = 0 → a = 0) := by
    intro a d hd h1 h2
    have e1 : a % 2 ^ 64 = a := Nat.mod_eq_of_lt (by omega)
    have e2 : (a + (d - 1)) % 2 ^ 64 = a + (d - 1) := Nat.mod_eq_of_lt h1
    rw [e1, e2, Nat.mod_eq_of_lt h2]
    refine ⟨(ceil_div_eq a d hd).symm, ?_⟩
    intro hz
    have h3 : a + (d - 1) < d := (Nat.div_eq_zero_iff hd).mp hz
    omega
  exact ⟨key (tn * f) 1000000000 (by norm_num) hn hnq,
    key (tu * f) 1000000 (by norm_num) hu huq,
    key (tm * f) 1000 (by norm_num) hm hmq⟩

theorem DwtBuilder.from_rounds_up_witness :
    (DwtBuilder.from_nano 72000001 1
          = ⌈((1 * 72000001 : Nat) : ℚ) / ((1000000000 : Nat) : ℚ)⌉₊ ∧
        (DwtBuilder.from_nano 72000001 1 = 0 → 1 * 72000001 = 0)) ∧
      (DwtBuilder.from_micro 72000001 3
          = ⌈((3 * 72000001 : Nat) : ℚ) / ((1000000 : Nat) : ℚ)⌉₊ ∧
        (DwtBuilder.from_micro 72000001 3 = 0 → 3 * 72000001 = 0)) ∧
      (DwtBuilder.from_milli 72000001 2
          = ⌈((2 * 72000001 : Nat) : ℚ) / ((1000 : Nat) : ℚ)⌉₊ ∧
        (DwtBuilder.from_milli 72000001 2 = 0 → 2 * 72000001 = 0)) :=
  DwtBuilder.from_rounds_up 72000001 1 3 2 (by decide) (by decide) (by decide) (by decide)
    (by decide) (by decide)

/-! ## Countdown and tick frame -/

/-- C29: for a timer registered once whose 32-bit counter is c, after k
invocations of the tick handler the counter is c - min(c, k); so isExpired()
is true after k invocations exactly when c <= k: false for every k < c and
true from k = c on. -/
theorem VTimer.exact_countdown (s : VTimer.State) (t k : Nat)
    (hreg : s.m_timers.count t = 1) (hc : (s.objs t).m_counter < 2 ^ 32) :
    ((VTimer.ticks k s).objs t).m_counter
        = (s.objs t).m_counter - min (s.objs t).m_counter k ∧
      ((VTimer.ticks k s).objs t).isExpired = decide ((s.objs t).m_counter ≤ k) ∧
      (k < (s.objs t).m_counter → ((VTimer.ticks k s).objs t).isExpired = false) ∧
      ((VTimer.ticks (s.objs t).m_counter s).objs t).isExpired = true := by
  have h1 : ∀ j, ((VTimer.ticks j s).objs t).m_counter = (s.objs t).m_counter - j := by
    intro j
    rw [VTimer.ticks_counter j s t hc, hreg, Nat.mul_one]
  refine ⟨?_, ?_, ?_, ?_⟩
  · rw [h1 k]; omega
  · simp only [VTimer.isExpired, h1 k, beq_iff_eq, Bool.decide_eq_true]
    by_cases h : (s.objs t).m_counter ≤ k
    · simp [h, Nat.sub_eq_zero_of_le h]
    · simp only [h, decide_False, beq_eq_false_iff_ne, ne_eq]
      omega
  · intro h
    simp only [VTimer.isExpired, h1 k, beq_eq_false_iff_ne, ne_eq]
    omega
  · simp [VTimer.isExpired, h1]

theorem VTimer.exact_countdown_witness :
    ((VTimer.ticks 2 ⟨fun a => ⟨a⟩, [4, 6]⟩).objs 6).m_counter
        = ((VTimer.State.mk (fun a => ⟨a⟩) [4, 6]).objs 6).m_counter
          - min ((VTimer.State.mk (fun a => ⟨a⟩) [4, 6]).objs 6).m_counter 2 ∧
      ((VTimer.ticks 2 ⟨fun a => ⟨a⟩, [4, 6]⟩).objs 6).isExpired
        = decide (((VTimer.State.mk (fun a => ⟨a⟩) [4, 6]).objs 6).m_counter ≤ 2) ∧
      (2 < ((VTimer.State.mk (fun a => ⟨a⟩) [4, 6]).objs 6).m_counter →
        ((VTimer.ticks 2 ⟨fun a => ⟨a⟩, [4, 6]⟩).objs 6).isExpired = false) ∧
      ((VTimer.ticks ((VTimer.State.mk (fun a => ⟨a⟩) [4, 6]).objs 6).m_counter
        ⟨fun a => ⟨a⟩, [4, 6]⟩).objs 6).isExpired = true :=
  VTimer.exact_countdown ⟨fun a => ⟨a⟩, [4, 6]⟩ 6 2 (by decide) (by decide)

/-- C30: an invocation of the tick handler leaves the registry list as it is
and leaves the object of a timer that is not registered as it is; so a timer
registered at most once that is erased with a nonzero counter keeps that
counter, and is not expired, after any number k of ticks. -/
theorem VTimer.tick_frame (s s1 : VTimer.State) (t k : Nat) (hun : t ∉ s.m_timers)
    (hone : s1.m_timers.count t ≤ 1) (hnz : (s1.objs t).m_counter ≠ 0) :
    (VTimer.HAL_SYSTICK_Callback s).m_timers = s.m_timers ∧
      (VTimer.HAL_SYSTICK_Callback s1).m_timers = s1.m_timers ∧
      (VTimer.HAL_SYSTICK_Callback s).objs t = s.objs t ∧
      (VTimer.ticks k s).objs t = s.objs t ∧
      (VTimer.ticks k (VTimer.erase s1 t)).m_timers = s1.m_timers.erase t ∧
      (VTimer.ticks k (VTimer.erase s1 t)).objs t = s1.objs t ∧
      ((VTimer.ticks k (VTimer.erase s1 t)).objs t).isExpired = false := by
  obtain ⟨he1, he2⟩ := VTimer.erase_m_timers s1 t
  have habs : t ∉ (VTimer.erase s1 t).m_timers := by
    rw [he1]
    apply List.count_eq_zero.mp
    rw [List.count_erase_self]; omega
  have hk : (VTimer.ticks k (VTimer.erase s1 t)).objs t = s1.objs t := by
    rw [VTimer.ticks_not_mem k _ t habs, he2]
  refine ⟨rfl, rfl, VTimer.foldl_proceedOne_not_mem s.m_timers s.objs t hun,
    VTimer.ticks_not_mem k s t hun, ?_, hk, ?_⟩
  · rw [VTimer.ticks_m_timers, he1]
  · rw [hk]
    simpa [VTimer.isExpired] using hnz

theorem VTimer.tick_frame_witness :
    (VTimer.HAL_SYSTICK_Callback ⟨fun _ => ⟨9⟩, [4, 6]⟩).m_timers
        = (VTimer.State.mk (fun _ => ⟨9⟩) [4, 6]).m_timers ∧
      (VTimer.HAL_SYSTICK_Callback ⟨fun _ => ⟨9⟩, [4, 5, 6]⟩).m_timers
        = (VTimer.State.mk (fun _ => ⟨9⟩) [4, 5, 6]).m_timers ∧
      (VTimer.HAL_SYSTICK_Callback ⟨fun _ => ⟨9⟩, [4, 6]⟩).objs 5
        = (VTimer.State.mk (fun _ => ⟨9⟩) [4, 6]).objs 5 ∧
      (VTimer.ticks 20 ⟨fun _ => ⟨9⟩, [4, 6]⟩).objs 5
        = (VTimer.State.mk (fun _ => ⟨9⟩) [4, 6]).objs 5 ∧
      (VTimer.ticks 20 (VTimer.erase ⟨fun _ => ⟨9⟩, [4, 5, 6]⟩ 5)).m_timers
        = (VTimer.State.mk (fun _ => ⟨9⟩) [4, 5, 6]).m_timers.erase 5 ∧
      (VTimer.ticks 20 (VTimer.erase ⟨fun _ => ⟨9⟩, [4, 5, 6]⟩ 5)).objs 5
        = (VTimer.State.mk (fun _ => ⟨9⟩) [4, 5, 6]).objs 5 ∧
      ((VTimer.ticks 20 (VTimer.erase ⟨fun _ => ⟨9⟩, [4, 5, 6]⟩ 5)).objs 5).isExpired = false :=
  VTimer.tick_frame ⟨fun _ => ⟨9⟩, [4, 6]⟩ ⟨fun _ => ⟨9⟩, [4, 5, 6]⟩ 5 20 (by decide)
    (by decide) (by decide)

/-! ## Push-model one-shot timer -/

/-- While fewer ticks than the counter have occurred, an armed timer registered
once returns false from every `isExpired()` and keeps its flags; the registry
has simply been ticked. -/
theorem OneShotVTimer.exec_pending (es : List OneShotVTimer.Event) :
    ∀ (s : VTimer.State) (t : OneShotVTimer), t.started = true → t.expired = false →
      s.m_timers.count t.base.this = 1 → (s.objs t.base.this).m_counter < 2 ^ 32 →
      OneShotVTimer.ticksIn es < (s.objs t.base.this).m_counter →
      (∀ e ∈ es, e.isPoll = true) →
      OneShotVTimer.exec s t es
        = (List.replicate (OneShotVTimer.callsIn es) false,
            (VTimer.ticks (OneShotVTimer.ticksIn es) s, t)) := by
  induction es with
  | nil => intro s t _ _ _ _ _ _; rfl
  | cons e es ih =>
    intro s t hs he hreg hc hlt hpoll
    have hrest : ∀ e1 ∈ es, e1.isPoll = true :=
      fun e1 h1 => hpoll e1 (List.mem_cons_of_mem e h1)
    cases e with
    | tick =>
      have hk : OneShotVTimer.ticksIn (OneShotVTimer.Event.tick :: es)
          = OneShotVTimer.ticksIn es + 1 := by
        simp [OneShotVTimer.ticksIn]
      have hcalls : OneShotVTimer.callsIn (OneShotVTimer.Event.tick :: es)
          = OneShotVTimer.callsIn es := by
        simp [OneShotVTimer.callsIn]
      rw [hk] at hlt
      have h1 := VTimer.proceed_counter s t.base.this hc
      rw [hreg] at h1
      have hcount : (VTimer.HAL_SYSTICK_Callback s).m_timers.count t.base.this = 1 := hreg
      rw [hk, hcalls, OneShotVTimer.exec,
        ih (VTimer.HAL_SYSTICK_Callback s) t hs he hcount (by rw [h1]; omega)
          (by rw [h1]; omega) hrest]
      rfl
    | isExpired =>
      have hk : OneShotVTimer.ticksIn (OneShotVTimer.Event.isExpired :: es)
          = OneShotVTimer.ticksIn es := by
        simp [OneShotVTimer.ticksIn]
      have hcalls : OneShotVTimer.callsIn (OneShotVTimer.Event.isExpired :: es)
          = OneShotVTimer.callsIn es + 1 := by
        simp [OneShotVTimer.callsIn]
      rw [hk] at hlt
      have hne : (s.objs t.base.this).m_counter ≠ 0 := by omega
      have hcall : OneShotVTimer.isExpired s t = (false, t) := by
        simp [OneShotVTimer.isExpired, hs, he, StackVTimer.isExpired, VTimer.isExpired, hne]
      rw [hk, hcalls, OneShotVTimer.exec, hcall, ih s t hs he hreg hc hlt hrest,
        List.replicate_succ]
    | next now =>
      have := hpoll _ (List.mem_cons_self _ _)
      simp [OneShotVTimer.Event.isPoll] at this
    | stop =>
      have := hpoll _ (List.mem_cons_self _ _)
      simp [OneShotVTimer.Event.isPoll] at this

/-- Once the expiry was reported, every `isExpired()` returns false, whatever
the ticks in between. -/
theorem OneShotVTimer.exec_latched (es : List OneShotVTimer.Event) :
    ∀ (s : VTimer.State) (t : OneShotVTimer), t.expired = true →
      (∀ e ∈ es, e.isPoll = true) → ∀ b ∈ (OneShotVTimer.exec s t es).1, b = false := by
  induction es with
  | nil => intro s t _ _ b hb; cases hb
  | cons e es ih =>
    intro s t he hpoll
    have hrest : ∀ e1 ∈ es, e1.isPoll = true :=
      fun e1 h1 => hpoll e1 (List.mem_cons_of_mem e h1)
    cases e with
    | tick =>
      rw [OneShotVTimer.exec]
      exact ih _ t he hrest
    | isExpired =>
      have hcall : OneShotVTimer.isExpired s t = (false, t) := by
        simp [OneShotVTimer.isExpired, he]
      rw [OneShotVTimer.exec, hcall]
      intro b hb
      rcases List.mem_cons.mp hb with hb | hb
      · exact hb
      · exact ih s t he hrest b hb
    | next now =>
      have := hpoll _ (List.mem_cons_self _ _)
      simp [OneShotVTimer.Event.isPoll] at this
    | stop =>
      have := hpoll _ (List.mem_cons_self _ _)
      simp [OneShotVTimer.Event.isPoll] at this

/-- C23: for a dynamic OneShotVTimer registered once and an interval c of the
32-bit counter type, after start(now, c): through any sequence of ticks and
isExpired() calls with fewer than c ticks every isExpired() returns false; the
first isExpired() made once at least c ticks have occurred (m further ticks
after that sequence) returns true; and every isExpired() of any later sequence
of ticks and calls returns false. -/
theorem OneShotVTimer.latch_fires_once (s : VTimer.State) (t : OneShotVTimer)
    (now c m : Nat) (es later : List OneShotVTimer.Event)
    (hdyn : t.base.policy.isDynamic = true) (hreg : s.m_timers.count t.base.this = 1)
    (hc : c < 2 ^ 32) (hes : ∀ e ∈ es, e.isPoll = true)
    (hearly : es = [] ∨ OneShotVTimer.ticksIn es < c)
    (hm : c ≤ OneShotVTimer.ticksIn es + m) (hlater : ∀ e ∈ later, e.isPoll = true) :
    ∃ s1 t1, OneShotVTimer.startWith s t now c = some (s1, t1) ∧
      (OneShotVTimer.exec s1 t1 es).1 = List.replicate (OneShotVTimer.callsIn es) false ∧
      (OneShotVTimer.isExpired (VTimer.ticks m (OneShotVTimer.exec s1 t1 es).2.1)
        (OneShotVTimer.exec s1 t1 es).2.2).1 = true ∧
      ∀ b ∈ (OneShotVTimer.exec (VTimer.ticks m (OneShotVTimer.exec s1 t1 es).2.1)
          (OneShotVTimer.isExpired (VTimer.ticks m (OneShotVTimer.exec s1 t1 es).2.1)
            (OneShotVTimer.exec s1 t1 es).2.2).2 later).1, b = false := by
  cases hp : t.base.policy with
  | Static I => rw [hp] at hdyn; cases hdyn
  | Dynamic i =>
    let s1 : VTimer.State := VTimer.next s t.base.this (StackVTimer.toReg c)
    let t1 : OneShotVTimer :=
      { base := ⟨t.base.this, .Dynamic c, now⟩, started := true, expired := false }
    have hstart : OneShotVTimer.startWith s t now c = some (s1, t1) := by
      simp [OneShotVTimer.startWith, StackVTimer.nextWith, IntervalPolicy.setInterval,
        IntervalPolicy.normalize, hp, s1, t1]
    have hcnt : (s1.objs t1.base.this).m_counter = c := by
      simp only [s1, t1, VTimer.next, VTimer.setCounter, StackVTimer.toReg, if_true]
      exact Nat.mod_eq_of_lt hc
    have hreg1 : s1.m_timers.count t1.base.this = 1 := hreg
    have hexec : OneShotVTimer.exec s1 t1 es
        = (List.replicate (OneShotVTimer.callsIn es) false,
            (VTimer.ticks (OneShotVTimer.ticksIn es) s1, t1)) := by
      rcases hearly with h | h
      · subst h; rfl
      · exact OneShotVTimer.exec_pending es s1 t1 rfl rfl hreg1 (by rw [hcnt]; exact hc)
          (by rw [hcnt]; exact h) hes
    have hk1 := VTimer.ticks_counter (OneShotVTimer.ticksIn es) s1 t1.base.this
      (by rw [hcnt]; exact hc)
    rw [hcnt, hreg1, Nat.mul_one] at hk1
    have hk2 := VTimer.ticks_counter m (VTimer.ticks (OneShotVTimer.ticksIn es) s1)
      t1.base.this (by rw [hk1]; omega)
    rw [hk1, VTimer.ticks_m_timers, hreg1, Nat.mul_one] at hk2
    have hzero : ((VTimer.ticks m (VTimer.ticks (OneShotVTimer.ticksIn es) s1)).objs
        t1.base.this).m_counter = 0 := by
      rw [hk2]; omega
    have hfire : OneShotVTimer.isExpired
        (VTimer.ticks m (VTimer.ticks (OneShotVTimer.ticksIn es) s1)) t1
        = (true, { t1 with expired := true }) := by
      have hb : t1.base.isExpired (VTimer.ticks m (VTimer.ticks (OneShotVTimer.ticksIn es) s1))
          = true := by
        simp [StackVTimer.isExpired, VTimer.isExpired, hzero]
      have hs1 : t1.started = true := rfl
      have he1 : t1.expired = false := rfl
      simp only [OneShotVTimer.isExpired, hs1, he1, hb]
      rfl
    refine ⟨s1, t1, hstart, ?_, ?_, ?_⟩
    · rw [hexec]
    · rw [hexec]
      simp only [hfire]
    · rw [hexec]
      simp only [hfire]
      exact OneShotVTimer.exec_latched later _ _ rfl hlater

theorem OneShotVTimer.latch_fires_once_witness :
    ∃ s1 t1, OneShotVTimer.startWith ⟨fun _ => ⟨0⟩, [7]⟩ ⟨⟨7, .Dynamic 0, 0⟩, false, true⟩
        100 3 = some (s1, t1) ∧
      (OneShotVTimer.exec s1 t1 [.isExpired, .tick, .isExpired, .tick]).1
        = List.replicate (OneShotVTimer.callsIn [.isExpired, .tick, .isExpired, .tick]) false ∧
      (OneShotVTimer.isExpired
        (VTimer.ticks 2 (OneShotVTimer.exec s1 t1 [.isExpired, .tick, .isExpired, .tick]).2.1)
        (OneShotVTimer.exec s1 t1 [.isExpired, .tick, .isExpired, .tick]).2.2).1 = true ∧
      ∀ b ∈ (OneShotVTimer.exec
          (VTimer.ticks 2 (OneShotVTimer.exec s1 t1 [.isExpired, .tick, .isExpired, .tick]).2.1)
          (OneShotVTimer.isExpired
            (VTimer.ticks 2
              (OneShotVTimer.exec s1 t1 [.isExpired, .tick, .isExpired, .tick]).2.1)
            (OneShotVTimer.exec s1 t1 [.isExpired, .tick, .isExpired, .tick]).2.2).2
          [.isExpired, .tick, .isExpired]).1, b = false :=
  OneShotVTimer.latch_fires_once ⟨fun _ => ⟨0⟩, [7]⟩ ⟨⟨7, .Dynamic 0, 0⟩, false, true⟩ 100 3 2
    [.isExpired, .tick, .isExpired, .tick] [.isExpired, .tick, .isExpired] rfl (by decide)
    (by decide) (by decide) (by decide) (by decide) (by decide)

/-! ## Helper lemmas on lifetimes and on the latches -/

/-- One legal operation keeps the registry free of duplicates and keeps every
registered timer alive. -/
theorem VTimer.stepOp_invariant (p : VTimer.Program) (op : VTimer.Op)
    (hnd : p.state.m_timers.Nodup) (hal : ∀ t ∈ p.state.m_timers, t ∈ p.alive)
    (hl : op.legal p.alive = true) :
    (VTimer.stepOp p op).state.m_timers.Nodup ∧
      ∀ t ∈ (VTimer.stepOp p op).state.m_timers, t ∈ (VTimer.stepOp p op).alive := by
  cases op with
  | ctor this delay =>
    have hfresh : this ∉ p.alive := by simpa [VTimer.Op.legal] using hl
    have hnot : this ∉ p.state.m_timers := fun h => hfresh (hal this h)
    constructor
    · show (p.state.m_timers ++ [this]).Nodup
      rw [List.nodup_append]
      refine ⟨hnd, List.nodup_singleton this, ?_⟩
      intro a ha hb
      rw [List.mem_singleton] at hb
      exact hnot (hb ▸ ha)
    · intro t ht
      have ht1 : t ∈ p.state.m_timers ++ [this] := ht
      show t ∈ this :: p.alive
      rcases List.mem_append.mp ht1 with h | h
      · exact List.mem_cons_of_mem _ (hal t h)
      · rw [List.mem_singleton] at h
        rw [h]
        exact List.mem_cons_self _ _
  | dtor this =>
    have he : (VTimer.dtor p.state this).m_timers = p.state.m_timers.erase this :=
      (VTimer.erase_m_timers p.state this).1
    constructor
    · show (VTimer.dtor p.state this).m_timers.Nodup
      rw [he]
      exact hnd.erase this
    · intro t ht
      have ht1 : t ∈ (VTimer.dtor p.state this).m_timers := ht
      rw [he, hnd.mem_erase_iff] at ht1
      show t ∈ p.alive.filter (fun a => a != this)
      rw [List.mem_filter]
      exact ⟨hal t ht1.2, by simpa using ht1.1⟩
  | erase this =>
    have he : (VTimer.erase p.state this).m_timers = p.state.m_timers.erase this :=
      (VTimer.erase_m_timers p.state this).1
    constructor
    · show (VTimer.erase p.state this).m_timers.Nodup
      rw [he]
      exact hnd.erase this
    · intro t ht
      have ht1 : t ∈ (VTimer.erase p.state this).m_timers := ht
      rw [he] at ht1
      exact hal t (List.mem_of_mem_erase ht1)
  | emplace this =>
    have hlive : this ∈ p.alive := by simpa [VTimer.Op.legal] using hl
    by_cases hmem : this ∈ p.state.m_timers
    · have he : VTimer.stepOp p (VTimer.Op.emplace this) = p := by
        show ({ p with state := VTimer.emplace p.state this } : VTimer.Program) = p
        rw [VTimer.emplace_of_mem p.state this hmem]
      rw [he]
      exact ⟨hnd, hal⟩
    · have he : (VTimer.emplace p.state this).m_timers = p.state.m_timers ++ [this] := by
        rw [VTimer.emplace_of_not_mem p.state this hmem]
      constructor
      · show (VTimer.emplace p.state this).m_timers.Nodup
        rw [he, List.nodup_append]
        refine ⟨hnd, List.nodup_singleton this, ?_⟩
        intro a ha hb
        rw [List.mem_singleton] at hb
        exact hmem (hb ▸ ha)
      · intro t ht
        have ht1 : t ∈ (VTimer.emplace p.state this).m_timers := ht
        rw [he] at ht1
        show t ∈ p.alive
        rcases List.mem_append.mp ht1 with h | h
        · exact hal t h
        · rw [List.mem_singleton] at h
          rw [h]
          exact hlive
  | next this delay => exact ⟨hnd, hal⟩
  | stop this => exact ⟨hnd, hal⟩
  | tick => exact ⟨hnd, hal⟩

/-- A legal sequence of operations keeps the registry free of duplicates and
keeps every registered timer alive. -/
theorem VTimer.runOps_invariant (ops : List VTimer.Op) :
    ∀ p : VTimer.Program, p.state.m_timers.Nodup → (∀ t ∈ p.state.m_timers, t ∈ p.alive) →
      VTimer.legalOps p ops = true →
      (VTimer.runOps p ops).state.m_timers.Nodup ∧
        ∀ t ∈ (VTimer.runOps p ops).state.m_timers, t ∈ (VTimer.runOps p ops).alive := by
  induction ops with
  | nil => intro p hnd hal _; exact ⟨hnd, hal⟩
  | cons op ops ih =>
    intro p hnd hal hl
    simp only [VTimer.legalOps, Bool.and_eq_true] at hl
    obtain ⟨h1, h2⟩ := VTimer.stepOp_invariant p op hnd hal hl.1
    exact ih (VTimer.stepOp p op) h1 h2 hl.2

/-- When the periodic test reports expiry, no time is left, at every width. -/
theorem StackITimer.timeLeft_of_isExpired (w : Nat) (t : StackITimer) (now : Nat)
    (hn : now < 2 ^ w) (h : t.isExpired w now = true) : t.timeLeft w now = 0 := by
  unfold StackITimer.isExpired at h
  unfold StackITimer.timeLeft
  have h1 : (t.getInterval : Int) ≤ subExpr w now t.lastTime := by simpa using h
  have h2 : t.getInterval ≤ toT w (subExpr w now t.lastTime) := by
    by_cases hw : w < 32
    · have e : subExpr w now t.lastTime = (now : Int) - (t.lastTime : Int) := by
        unfold subExpr; rw [if_pos hw]
      rw [e] at h1 ⊢
      unfold toT
      have hp : ((2 : Int) ^ w) = ((2 ^ w : Nat) : Int) := by push_cast; rfl
      rw [hp]
      generalize 2 ^ w = m at hn
      rw [Int.emod_eq_of_lt (by omega) (by omega)]
      omega
    · rw [subExpr_wide w now t.lastTime (by omega)] at h1 ⊢
      rw [toT_natCast_mod]
      exact_mod_cast h1
  simp only [h2, if_true]

/-- A push-model one-shot that is not started returns false from every
`isExpired()`, through ticks, `next(now)` and `stop()` calls. -/
theorem OneShotVTimer.exec_not_started (es : List OneShotVTimer.Event) :
    ∀ (s : VTimer.State) (t : OneShotVTimer), t.started = false →
      (∀ b ∈ (OneShotVTimer.exec s t es).1, b = false) ∧
        (OneShotVTimer.exec s t es).2.2.started = false := by
  induction es with
  | nil => intro s t hs; exact ⟨(fun b hb => by cases hb), hs⟩
  | cons e es ih =>
    intro s t hs
    cases e with
    | tick =>
      rw [OneShotVTimer.exec]
      exact ih _ t hs
    | isExpired =>
      have hcall : OneShotVTimer.isExpired s t = (false, t) := by
        simp [OneShotVTimer.isExpired, hs]
      rw [OneShotVTimer.exec, hcall]
      obtain ⟨h1, h2⟩ := ih s t hs
      refine ⟨?_, h2⟩
      intro b hb
      rcases List.mem_cons.mp hb with hb | hb
      · exact hb
      · exact h1 b hb
    | next now =>
      rw [OneShotVTimer.exec]
      exact ih _ _ hs
    | stop =>
      rw [OneShotVTimer.exec]
      exact ih _ _ rfl

/-! ## Registry invariant and inert latches -/

/-- C31: starting from the empty registry, after every sequence of
constructions at addresses where no timer lives, erase(), emplace(), next(),
stop() and destructions of living timers, and tick-handler invocations, every
timer appears in the registry at most once, a timer that is not alive does not
appear at all, and a timer is absent right after its destruction. -/
theorem VTimer.registry_no_duplicates (objs : Nat → VTimer) (ops : List VTimer.Op)
    (this : Nat) (h : VTimer.legalOps (VTimer.Program.init objs) ops = true) :
    (VTimer.runOps (VTimer.Program.init objs) ops).state.m_timers.Nodup ∧
      (∀ t, (VTimer.runOps (VTimer.Program.init objs) ops).state.m_timers.count t ≤ 1) ∧
      (∀ t, t ∉ (VTimer.runOps (VTimer.Program.init objs) ops).alive →
        t ∉ (VTimer.runOps (VTimer.Program.init objs) ops).state.m_timers) ∧
      this ∉ (VTimer.stepOp (VTimer.runOps (VTimer.Program.init objs) ops)
        (VTimer.Op.dtor this)).state.m_timers := by
  obtain ⟨hnd, hal⟩ := VTimer.runOps_invariant ops (VTimer.Program.init objs)
    List.nodup_nil (fun t ht => by cases ht) h
  refine ⟨hnd, fun t => List.nodup_iff_count_le_one.mp hnd t, fun t ht hm => ht (hal t hm), ?_⟩
  show this ∉ (VTimer.dtor (VTimer.runOps (VTimer.Program.init objs) ops).state this).m_timers
  have he := (VTimer.erase_m_timers (VTimer.runOps (VTimer.Program.init objs) ops).state this).1
  have hd : VTimer.dtor (VTimer.runOps (VTimer.Program.init objs) ops).state this
      = VTimer.erase (VTimer.runOps (VTimer.Program.init objs) ops).state this := rfl
  rw [hd, he, hnd.mem_erase_iff]
  exact fun h1 => h1.1 rfl

theorem VTimer.registry_no_duplicates_witness :
    (VTimer.runOps (VTimer.Program.init fun _ => ⟨0⟩)
        [.ctor 1 5, .ctor 2 0, .emplace 1, .erase 1, .emplace 1, .tick, .dtor 2, .ctor 2 7,
          .next 1 3, .stop 2]).state.m_timers.Nodup ∧
      (∀ t, (VTimer.runOps (VTimer.Program.init fun _ => ⟨0⟩)
        [.ctor 1 5, .ctor 2 0, .emplace 1, .erase 1, .emplace 1, .tick, .dtor 2, .ctor 2 7,
          .next 1 3, .stop 2]).state.m_timers.count t ≤ 1) ∧
      (∀ t, t ∉ (VTimer.runOps (VTimer.Program.init fun _ => ⟨0⟩)
          [.ctor 1 5, .ctor 2 0, .emplace 1, .erase 1, .emplace 1, .tick, .dtor 2, .ctor 2 7,
            .next 1 3, .stop 2]).alive →
        t ∉ (VTimer.runOps (VTimer.Program.init fun _ => ⟨0⟩)
          [.ctor 1 5, .ctor 2 0, .emplace 1, .erase 1, .emplace 1, .tick, .dtor 2, .ctor 2 7,
            .next 1 3, .stop 2]).state.m_timers) ∧
      1 ∉ (VTimer.stepOp (VTimer.runOps (VTimer.Program.init fun _ => ⟨0⟩)
        [.ctor 1 5, .ctor 2 0, .emplace 1, .erase 1, .emplace 1, .tick, .dtor 2, .ctor 2 7,
          .next 1 3, .stop 2]) (VTimer.Op.dtor 1)).state.m_timers :=
  VTimer.registry_no_duplicates (fun _ => ⟨0⟩)
    [.ctor 1 5, .ctor 2 0, .emplace 1, .erase 1, .emplace 1, .tick, .dtor 2, .ctor 2 7,
      .next 1 3, .stop 2] 1 (by decide)

/-- C32: at every width and in every state, OneShotITimer::isExpired(now)
returns true only if started was true and expired was false before the call
and StackITimer::isExpired(now) is true, in which case timeLeft(now) is 0; a
call that returns false leaves the object as it was, a call that returns true
changes only expired, to true; no call changes lastTime, the interval or
started. -/
theorem OneShotITimer.isExpired_only_filters (w : Nat) (t : OneShotITimer) (now : Nat)
    (hn : now < 2 ^ w) :
    ((t.isExpired w now).1 = true →
        t.started = true ∧ t.expired = false ∧ t.base.isExpired w now = true ∧
          t.base.timeLeft w now = 0) ∧
      ((t.isExpired w now).1 = false → (t.isExpired w now).2 = t) ∧
      ((t.isExpired w now).1 = true → (t.isExpired w now).2 = { t with expired := true }) ∧
      (t.isExpired w now).2.base = t.base ∧
      (t.isExpired w now).2.base.lastTime = t.base.lastTime ∧
      (t.isExpired w now).2.base.getInterval = t.base.getInterval ∧
      (t.isExpired w now).2.started = t.started := by
  by_cases hg : (!t.started || t.expired) = true
  · have hval : t.isExpired w now = (false, t) := by
      unfold OneShotITimer.isExpired
      rw [if_pos hg]
    rw [hval]
    exact ⟨(fun h => by simp at h), (fun _ => rfl), (fun h => by simp at h), rfl, rfl, rfl, rfl⟩
  · have hs : t.started = true := by
      cases hst : t.started <;> simp [hst] at hg ⊢
    have he : t.expired = false := by
      cases hex : t.expired <;> simp [hex] at hg ⊢
    by_cases hb : t.base.isExpired w now = true
    · have hval : t.isExpired w now = (true, { t with expired := true }) := by
        unfold OneShotITimer.isExpired
        rw [if_neg hg, if_pos hb]
      rw [hval]
      exact ⟨(fun _ => ⟨hs, he, hb, StackITimer.timeLeft_of_isExpired w t.base now hn hb⟩),
        (fun h => by simp at h), (fun _ => rfl), rfl, rfl, rfl, rfl⟩
    · have hval : t.isExpired w now = (false, t) := by
        unfold OneShotITimer.isExpired
        rw [if_neg hg, if_neg hb]
      rw [hval]
      exact ⟨(fun h => by simp at h), (fun _ => rfl), (fun h => by simp at h), rfl, rfl, rfl,
        rfl⟩

theorem OneShotITimer.isExpired_only_filters_witness :
    (((OneShotITimer.mk ⟨.Dynamic 100, 4294967290⟩ true false).isExpired 32 94).1 = true →
        (OneShotITimer.mk ⟨.Dynamic 100, 4294967290⟩ true false).started = true ∧
          (OneShotITimer.mk ⟨.Dynamic 100, 4294967290⟩ true false).expired = false ∧
          (OneShotITimer.mk ⟨.Dynamic 100, 4294967290⟩ true false).base.isExpired 32 94 = true ∧
          (OneShotITimer.mk ⟨.Dynamic 100, 4294967290⟩ true false).base.timeLeft 32 94 = 0) ∧
      (((OneShotITimer.mk ⟨.Dynamic 100, 4294967290⟩ true false).isExpired 32 94).1 = false →
        ((OneShotITimer.mk ⟨.Dynamic 100, 4294967290⟩ true false).isExpired 32 94).2
          = OneShotITimer.mk ⟨.Dynamic 100, 4294967290⟩ true false) ∧
      (((OneShotITimer.mk ⟨.Dynamic 100, 4294967290⟩ true false).isExpired 32 94).1 = true →
        ((OneShotITimer.mk ⟨.Dynamic 100, 4294967290⟩ true false).isExpired 32 94).2
          = { OneShotITimer.mk ⟨.Dynamic 100, 4294967290⟩ true false with expired := true }) ∧
      ((OneShotITimer.mk ⟨.Dynamic 100, 4294967290⟩ true false).isExpired 32 94).2.base
        = (OneShotITimer.mk ⟨.Dynamic 100, 4294967290⟩ true false).base ∧
      ((OneShotITimer.mk ⟨.Dynamic 100, 4294967290⟩ true false).isExpired 32 94).2.base.lastTime
        = (OneShotITimer.mk ⟨.Dynamic 100, 4294967290⟩ true false).base.lastTime ∧
      ((OneShotITimer.mk ⟨.Dynamic 100, 4294967290⟩ true false).isExpired 32
          94).2.base.getInterval
        = (OneShotITimer.mk ⟨.Dynamic 100, 4294967290⟩ true false).base.getInterval ∧
      ((OneShotITimer.mk ⟨.Dynamic 100, 4294967290⟩ true false).isExpired 32 94).2.started
        = (OneShotITimer.mk ⟨.Dynamic 100, 4294967290⟩ true false).started :=
  OneShotITimer.isExpired_only_filters 32 (OneShotITimer.mk ⟨.Dynamic 100, 4294967290⟩ true false)
    94 (by decide)

/-- C33: after OneShotVTimer::stop() the counter is 0, so timeLeft() is 0 and
the countdown reads expired, started is false and expired is true; and through
every following sequence of tick invocations, next(now) calls, stop() calls and
isExpired() calls every OneShotVTimer::isExpired() returns false. -/
theorem OneShotVTimer.stop_is_inert (s : VTimer.State) (t : OneShotVTimer)
    (es : List OneShotVTimer.Event) :
    ((OneShotVTimer.stop s t).1.objs t.base.this).m_counter = 0 ∧
      StackVTimer.timeLeft (OneShotVTimer.stop s t).1 (OneShotVTimer.stop s t).2.base = 0 ∧
      StackVTimer.isExpired (OneShotVTimer.stop s t).1 (OneShotVTimer.stop s t).2.base = true ∧
      (OneShotVTimer.stop s t).2.started = false ∧
      (OneShotVTimer.stop s t).2.expired = true ∧
      (OneShotVTimer.stop s t).2.base = t.base ∧
      ∀ b ∈ (OneShotVTimer.exec (OneShotVTimer.stop s t).1 (OneShotVTimer.stop s t).2 es).1,
        b = false := by
  have hc : ((OneShotVTimer.stop s t).1.objs t.base.this).m_counter = 0 := by
    simp [OneShotVTimer.stop, VTimer.stop, VTimer.setCounter]
  refine ⟨hc, hc, ?_, rfl, rfl, rfl, ?_⟩
  · show ((OneShotVTimer.stop s t).1.objs t.base.this).isExpired = true
    simp [VTimer.isExpired, hc]
  · exact (OneShotVTimer.exec_not_started es _ _ rfl).1

end StmTime
